import Mathlib

/-
Verification of the Arrow client connection handler
(src/src/net/arrow/mod.rs of crazyrex/arrow-client).

The engine is embedded shallowly: the event-driven `ConnectionHandler` becomes
a pure state record, every handler method becomes a state transformer, and the
surrounding I/O (the mio event loop, the TLS stream, session sockets, the
shared application context) is abstracted into explicit inputs: the current
instant `now`, a config snapshot, and oracle outcomes for socket operations.
Messages serialized into the tunnel output buffer are additionally recorded in
a ghost `sent_log`, and `event_loop.timeout_ms` calls are recorded in a ghost
`timers` list.

Types from modules that are not part of the given sources
(net::utils::Timeout, net::utils::WriteBuffer and the protocol codec in
src/net/arrow/protocol) are modelled from the spec; each such definition says
so in its doc comment.
-/

namespace Arrow

/-- Update check period in milliseconds (const UPDATE_CHECK_PERIOD). -/
def UPDATE_CHECK_PERIOD : Nat := 5000

/-- Timeout check period in milliseconds (const TIMEOUT_CHECK_PERIOD). -/
def TIMEOUT_CHECK_PERIOD : Nat := 1000

/-- Ping period in milliseconds (const PING_PERIOD). -/
def PING_PERIOD : Nat := 60000

/-- Connection timeout in milliseconds (const CONNECTION_TIMEOUT). -/
def CONNECTION_TIMEOUT : Nat := 20000

/-- Status flag for network scanning. Modelled from the spec:
STATUS_FLAG_SCAN = 0x00000001 (the constant lives in the missing
protocol module). -/
def STATUS_FLAG_SCAN : Nat := 1

/-- Timeout primitive. Modelled from the spec: the source type lives in the
missing module net::utils; the spec describes it as a record holding an
optional deadline instant, where set records a deadline, clear unsets it and
check is true iff the timeout is unset or the current instant is still before
the deadline. The current instant is passed explicitly as a natural number. -/
structure Timeout where
  deadline : Option Nat
deriving DecidableEq, Repr

/-- A fresh, unarmed timeout. -/
def Timeout.new : Timeout := ⟨none⟩

/-- Arm the timeout: the deadline is the current instant plus the duration. -/
def Timeout.set (_t : Timeout) (now dur : Nat) : Timeout := ⟨some (now + dur)⟩

/-- Disarm the timeout. -/
def Timeout.clear (_t : Timeout) : Timeout := ⟨none⟩

/-- Check a timeout: true iff unset or not yet expired. -/
def Timeout.check (t : Timeout) (now : Nat) : Bool :=
  match t.deadline with
  | none => true
  | some d => now < d

/-- ArrowStream states (enum ArrowStreamState). -/
inductive ArrowStreamState where
  | Ok
  | ReaderWantRead
  | ReaderWantWrite
  | WriterWantRead
  | WriterWantWrite
deriving DecidableEq, Repr

/-- Readiness flags delivered by the event loop (mio EventSet): the four
flags the source consults through is_readable, is_writable, is_error and
is_hup. -/
structure EventSet where
  readable : Bool
  writable : Bool
  err : Bool
  hup : Bool
deriving DecidableEq, Repr

/-- Abstraction over the Arrow SSL stream (struct ArrowStream). Only the
tracked `state` component takes part in the readiness projection; the
underlying TLS stream and socket token are external I/O. -/
structure ArrowStream where
  state : ArrowStreamState
deriving DecidableEq, Repr

/-- ArrowStream::can_read: check if the underlying socket is ready to read. -/
def ArrowStream.can_read (s : ArrowStream) (event_set : EventSet) : Bool :=
  match s.state with
  | ArrowStreamState.Ok => event_set.readable
  | ArrowStreamState.ReaderWantRead => event_set.readable
  | ArrowStreamState.ReaderWantWrite => event_set.writable
  | _ => false

/-- ArrowStream::can_write: check if the underlying socket is ready to
write. -/
def ArrowStream.can_write (s : ArrowStream) (event_set : EventSet) : Bool :=
  match s.state with
  | ArrowStreamState.Ok => event_set.writable
  | ArrowStreamState.WriterWantRead => event_set.readable
  | ArrowStreamState.WriterWantWrite => event_set.writable
  | _ => false

/-- Commands that might be sent by the Arrow Client (enum Command). -/
inductive Command where
  | ResetServiceTable
  | ScanNetwork
deriving DecidableEq, Repr

/-- Arrow Protocol states (enum ProtocolState). -/
inductive ProtocolState where
  | Handshake
  | Established
deriving DecidableEq, Repr

/-- Types of epoll() timer events (enum TimerEvent). -/
inductive TimerEvent where
  | Update
  | Ping
  | TimeoutCheck (tok : Nat)
deriving DecidableEq, Repr

/-- Control Protocol message types. Modelled from the spec: the enumeration
lives in the missing protocol module; the spec lists
ACK, PING, REGISTER, UPDATE, REDIRECT, HUP, RESET_SVC_TABLE, SCAN_NETWORK,
GET_STATUS, STATUS and UNKNOWN. -/
inductive ControlMessageType where
  | ack
  | ping
  | register
  | update
  | redirect
  | hup
  | reset_svc_table
  | scan_network
  | get_status
  | status
  | unknown
deriving DecidableEq, Repr

/-- Rendering of a control message type, mirroring the Rust Debug formatting
used in the catch-all error of process_control_message. Modelled from the
spec's names for the enumeration variants. -/
def ControlMessageType.type_name : ControlMessageType → String
  | .ack => "ACK"
  | .ping => "PING"
  | .register => "REGISTER"
  | .update => "UPDATE"
  | .redirect => "REDIRECT"
  | .hup => "HUP"
  | .reset_svc_table => "RESET_SVC_TABLE"
  | .scan_network => "SCAN_NETWORK"
  | .get_status => "GET_STATUS"
  | .status => "STATUS"
  | .unknown => "UNKNOWN"

/-- Service table advertised to the Arrow Service. Modelled from the spec:
the table itself is opaque to the engine; it carries the config version it
was snapshotted at (the spec ties the version of the carried table to the
config version of the same snapshot) and an opaque serialized form. -/
structure ServiceTable where
  version : Nat
  data : List Nat
deriving DecidableEq, Repr

/-- Body of a Control Protocol message, as built by the control::create_*
constructors the engine calls. Modelled from the spec where the binary
layout lives in the missing protocol module: REGISTER carries uuid, mac,
password and the service table; UPDATE carries the service table; ACK an
error code; HUP a session id and an error code; STATUS a request id, flags
and the active session count. -/
inductive CtrlBody where
  | registerB (uuid : List Nat) (mac : List Nat) (password : List Nat) (table : ServiceTable)
  | updateB (table : ServiceTable)
  | pingB
  | ackB (error_code : Nat)
  | hupB (session_id : Nat) (error_code : Nat)
  | statusB (request_id : Nat) (flags : Nat) (active_sessions : Nat)
deriving DecidableEq, Repr

/-- A Control Protocol message: header message id plus body. -/
structure ControlMessage where
  msg_id : Nat
  body : CtrlBody
deriving DecidableEq, Repr

/-- Payload of an Arrow Message: either a Control Protocol message
(service id 0) or raw session data. -/
inductive ArrowPayload where
  | ctrl (c : ControlMessage)
  | data (bytes : List Nat)
deriving DecidableEq, Repr

/-- An Arrow Message frame on the tunnel (struct ArrowMessage). -/
structure ArrowMsg where
  service : Nat
  session : Nat
  payload : ArrowPayload
deriving DecidableEq, Repr

/-- Serialized size of a control message body. Modelled from the spec's body
layouts: uuid 16 + mac 6 + password + table for REGISTER, the table for
UPDATE, 4-byte error code for ACK, 8 bytes for HUP, 10 bytes for STATUS. -/
def CtrlBody.size : CtrlBody → Nat
  | .registerB uuid mac password table =>
      uuid.length + mac.length + password.length + table.data.length
  | .updateB table => table.data.length
  | .pingB => 0
  | .ackB _ => 4
  | .hupB _ _ => 8
  | .statusB _ _ _ => 10

/-- Serialized size of an Arrow Message payload: control messages carry a
4-byte control header (msg id and type) in front of the body. Modelled from
the spec. -/
def ArrowPayload.size : ArrowPayload → Nat
  | .ctrl c => 4 + c.body.size
  | .data bytes => bytes.length

/-- Serialized size of a whole Arrow Message: service id (2), session id (4),
framing length (4), payload. Modelled from the spec: the exact layout lives
in the missing protocol module; only monotonicity of the buffer fill level
matters to the engine. -/
def ArrowMsg.wire_size (m : ArrowMsg) : Nat := 10 + m.payload.size

/-- The tunnel output buffer. Modelled from the spec:
net::utils::WriteBuffer is a bounded append buffer with is_empty / is_full /
buffered predicates; append always succeeds (the bound only feeds is_full).
Since the serialization layout of Arrow Messages lives in the missing
protocol module, the model stores whole frames and measures the fill level
through ArrowMsg.wire_size. -/
structure OutputBuffer where
  capacity : Nat
  frames : List ArrowMsg
deriving DecidableEq, Repr

/-- Number of buffered bytes. -/
def OutputBuffer.buffered (b : OutputBuffer) : Nat :=
  (b.frames.map ArrowMsg.wire_size).sum

/-- WriteBuffer::is_full, spec-modelled: the buffer is full when the fill
level reaches the capacity. -/
def OutputBuffer.is_full (b : OutputBuffer) : Bool :=
  b.capacity ≤ b.buffered

/-- WriteBuffer::is_empty. -/
def OutputBuffer.is_empty (b : OutputBuffer) : Bool :=
  b.frames.isEmpty

/-- An external service entry of the service table, as the engine sees it:
config.get(service_id) yields a service whose address() is None exactly for
Control Protocol services. Modelled from the spec's collaborator interface. -/
structure Service where
  address : Option Nat
deriving DecidableEq, Repr

/-- Snapshot of the shared application config, as read under the app context
lock. Modelled from the spec's collaborator interface: uuid, password,
version, the service table and a service lookup. -/
structure Config where
  uuid : List Nat
  password : List Nat
  version : Nat
  table_data : List Nat
  services : List (Nat × Service)
deriving DecidableEq, Repr

/-- Association-list lookup, the model of HashMap lookup. -/
def alookup {α : Type} (k : Nat) : List (Nat × α) → Option α
  | [] => none
  | (k', v) :: t => if k' = k then some v else alookup k t

/-- Pointwise update of the entry with a given key. -/
def aupdate {α : Type} (k : Nat) (f : α → α) (l : List (Nat × α)) : List (Nat × α) :=
  l.map fun p => (p.1, if p.1 = k then f p.2 else p.2)

/-- Removal of the entry with a given key (HashMap::remove). -/
def aerase {α : Type} (k : Nat) : List (Nat × α) → List (Nat × α)
  | [] => []
  | (k', v) :: t => if k' = k then aerase k t else (k', v) :: aerase k t

/-- config.get(service_id). -/
def Config.get (c : Config) (service_id : Nat) : Option Service :=
  alookup service_id c.services

/-- config.service_table(): the table snapshotted together with the current
version. -/
def Config.service_table (c : Config) : ServiceTable :=
  ⟨c.version, c.table_data⟩

/-- External service session context (struct SessionContext). The local TCP
stream, logger and the fixed read scratch buffer are external I/O and are not
part of the state; the input and output buffers hold the byte queues. -/
structure SessionContext where
  service_id : Nat
  session_id : Nat
  input_buffer : List Nat
  output_buffer : List Nat
  write_tout : Timeout
deriving DecidableEq, Repr

/-- SessionContext::send_message: append data to the session output buffer;
when the buffer transitions from empty, arm the write timeout. -/
def SessionContext.send_message (ctx : SessionContext) (data : List Nat) (now : Nat) : SessionContext :=
  let was_empty := ctx.output_buffer.isEmpty
  let ctx' := { ctx with output_buffer := ctx.output_buffer ++ data }
  if was_empty then { ctx' with write_tout := ctx'.write_tout.set now CONNECTION_TIMEOUT } else ctx'

/-- Convert a session ID into a token (socket) ID (fn session2token). -/
def session2token (session_id : Nat) : Nat :=
  session_id ||| (1 <<< 24)

/-- Convert a token (socket) ID into a session ID (fn token2session). -/
def token2session (token_id : Nat) : Nat :=
  token_id &&& ((1 <<< 24) - 1)

/-- Result type of the socket event handlers
(type SocketEventResult = Result<Option<String>>): errors are the fatal
ArrowError messages, success optionally carries a redirect address. Strings
coming from the wire are represented by their UTF-8 byte lists. -/
def CtrlResult := Except String (Option (List Nat))

/-- View of an Except value as a sum, used only to derive decidable
equality. -/
def except_to_sum {ε α : Type} : Except ε α → ε ⊕ α
  | Except.error err => Sum.inl err
  | Except.ok a => Sum.inr a

instance except_dec_eq {ε α : Type} [DecidableEq ε] [DecidableEq α] : DecidableEq (Except ε α) :=
  fun x y =>
    decidable_of_iff (except_to_sum x = except_to_sum y)
      (by cases x <;> cases y <;> simp [except_to_sum])

instance : DecidableEq CtrlResult := by
  unfold CtrlResult
  infer_instance

/-- Arrow client connection handler (struct ConnectionHandler). The read and
write scratch buffers, the message parser, the TLS stream and the handles to
the logger, command channel and shared app context are external; `sent_log`
is a ghost trace of every Arrow Message serialized into the output buffer,
`timers` a ghost trace of every event_loop.timeout_ms call and `cmds` the
trace of commands accepted by the command channel. -/
structure ConnectionHandler where
  sessions : List (Nat × SessionContext)
  session_queue : List Nat
  output_buffer : OutputBuffer
  sent_log : List ArrowMsg
  state : ProtocolState
  last_update : Option Nat
  write_tout : Timeout
  ack_tout : Timeout
  msg_id : Nat
  expected_acks : List Nat
  timers : List (TimerEvent × Nat)
  cmds : List Command
  result : Option (Except String (List Nat))
  shutdown_flag : Bool

/-- ConnectionHandler::send_message: arm the write timeout when the output
buffer transitions from empty, then serialize the message into the output
buffer (the ghost sent_log records it as well). -/
def send_message (msg : ArrowMsg) (now : Nat) (e : ConnectionHandler) : ConnectionHandler :=
  let e1 :=
    if e.output_buffer.is_empty then
      { e with write_tout := e.write_tout.set now CONNECTION_TIMEOUT }
    else e
  { e1 with
    output_buffer := ⟨e1.output_buffer.capacity, e1.output_buffer.frames ++ [msg]⟩,
    sent_log := e1.sent_log ++ [msg] }

/-- ConnectionHandler::send_control_message: wrap a control message in an
Arrow Message with service id 0 and session id 0. -/
def send_control_message (c : ControlMessage) (now : Nat) (e : ConnectionHandler) : ConnectionHandler :=
  send_message ⟨0, 0, ArrowPayload.ctrl c⟩ now e

/-- ConnectionHandler::send_unconfirmed_control_message: arm the ACK timeout
when the expected-ACK queue transitions from empty, enqueue the message id,
then send. -/
def send_unconfirmed_control_message (c : ControlMessage) (now : Nat) (e : ConnectionHandler) : ConnectionHandler :=
  let e1 :=
    if e.expected_acks.isEmpty then
      { e with ack_tout := e.ack_tout.set now CONNECTION_TIMEOUT }
    else e
  let e2 := { e1 with expected_acks := e1.expected_acks ++ [c.msg_id] }
  send_control_message c now e2

/-- ConnectionHandler::create_register_request: build the REGISTER message
from the config snapshot, record the table version as last_update, bump the
message counter and send the message expecting an ACK. -/
def create_register_request (cfg : Config) (mac : List Nat) (now : Nat) (e : ConnectionHandler) : ConnectionHandler :=
  let c : ControlMessage :=
    ⟨e.msg_id, CtrlBody.registerB cfg.uuid mac cfg.password cfg.service_table⟩
  let e1 := { e with last_update := some cfg.version, msg_id := (e.msg_id + 1) % 65536 }
  send_unconfirmed_control_message c now e1

/-- ConnectionHandler::send_update_message. -/
def send_update_message (table : ServiceTable) (now : Nat) (e : ConnectionHandler) : ConnectionHandler :=
  let c : ControlMessage := ⟨e.msg_id, CtrlBody.updateB table⟩
  send_control_message c now { e with msg_id := (e.msg_id + 1) % 65536 }

/-- ConnectionHandler::send_ping_message. -/
def send_ping_message (now : Nat) (e : ConnectionHandler) : ConnectionHandler :=
  let c : ControlMessage := ⟨e.msg_id, CtrlBody.pingB⟩
  send_unconfirmed_control_message c now { e with msg_id := (e.msg_id + 1) % 65536 }

/-- ConnectionHandler::send_hup_message. -/
def send_hup_message (session_id error_code : Nat) (now : Nat) (e : ConnectionHandler) : ConnectionHandler :=
  let c : ControlMessage := ⟨e.msg_id, CtrlBody.hupB session_id error_code⟩
  send_control_message c now { e with msg_id := (e.msg_id + 1) % 65536 }

/-- ConnectionHandler::send_status: the status message carries the request
id, a scan flag taken from the shared app context and the number of active
sessions. -/
def send_status (request_id : Nat) (scanning : Bool) (now : Nat) (e : ConnectionHandler) : ConnectionHandler :=
  let status_flags := if scanning then STATUS_FLAG_SCAN else 0
  let c : ControlMessage :=
    ⟨e.msg_id, CtrlBody.statusB request_id status_flags e.sessions.length⟩
  send_control_message c now { e with msg_id := (e.msg_id + 1) % 65536 }

/-- ConnectionHandler::send_ack_message: note that the ACK reuses the
incoming message id and does not bump the counter. -/
def send_ack_message (msg_id error_code : Nat) (now : Nat) (e : ConnectionHandler) : ConnectionHandler :=
  send_control_message ⟨msg_id, CtrlBody.ackB error_code⟩ now e

/-- The inline condition of check_update: send iff the current version is
strictly newer than the last sent one (or nothing was sent yet). -/
def update_needed : Option Nat → Nat → Bool
  | some sent_version, cur_version => sent_version < cur_version
  | none, _ => true

/-- ConnectionHandler::check_update: send an UPDATE message and record the
new version when the service table changed. -/
def check_update (cfg : Config) (now : Nat) (e : ConnectionHandler) : ConnectionHandler :=
  if update_needed e.last_update cfg.version then
    let e1 := send_update_message cfg.service_table now e
    { e1 with last_update := some cfg.version }
  else e

/-- ConnectionHandler::te_check_update: periodic update check; always
reschedules itself. -/
def te_check_update (cfg : Config) (now : Nat) (e : ConnectionHandler) : ConnectionHandler × Except String Unit :=
  let e1 := check_update cfg now e
  ({ e1 with timers := e1.timers ++ [(TimerEvent.Update, UPDATE_CHECK_PERIOD)] }, Except.ok ())

/-- ConnectionHandler::te_check_connection: periodic PING; always
reschedules itself. -/
def te_check_connection (now : Nat) (e : ConnectionHandler) : ConnectionHandler × Except String Unit :=
  let e1 := send_ping_message now e
  ({ e1 with timers := e1.timers ++ [(TimerEvent.Ping, PING_PERIOD)] }, Except.ok ())

/-- ConnectionHandler::check_arrow_timeout: both the write timeout and the
ACK timeout must be unexpired, otherwise the connection is torn down. -/
def check_arrow_timeout (now : Nat) (e : ConnectionHandler) : ConnectionHandler × Except String Unit :=
  if !(e.write_tout.check now) || !(e.ack_tout.check now) then
    (e, Except.error "Arrow Service connection timeout")
  else
    ({ e with timers := e.timers ++ [(TimerEvent.TimeoutCheck 0, TIMEOUT_CHECK_PERIOD)] }, Except.ok ())

/-- ConnectionHandler::remove_session_context. -/
def remove_session_context (session_id : Nat) (e : ConnectionHandler) : ConnectionHandler :=
  { e with sessions := aerase session_id e.sessions }

/-- ConnectionHandler::check_session_timeout: a session whose write timeout
expired is HUPed (error code 0) and destroyed; otherwise (also when no such
session exists) the per-session timeout check timer is re-armed. -/
def check_session_timeout (session_id : Nat) (now : Nat) (e : ConnectionHandler) : ConnectionHandler × Except String Unit :=
  let timeout :=
    match alookup session_id e.sessions with
    | some ctx => !(ctx.write_tout.check now)
    | none => false
  if timeout then
    let e1 := send_hup_message session_id 0 now e
    (remove_session_context session_id e1, Except.ok ())
  else
    ({ e with timers := e.timers ++ [(TimerEvent.TimeoutCheck (session2token session_id), TIMEOUT_CHECK_PERIOD)] },
      Except.ok ())

/-- ConnectionHandler::te_check_timeout: token 0 is the Arrow socket, any
other token is a session token. -/
def te_check_timeout (tok : Nat) (now : Nat) (e : ConnectionHandler) : ConnectionHandler × Except String Unit :=
  if tok = 0 then check_arrow_timeout now e
  else check_session_timeout (token2session tok) now e

/-- Big-endian 32-bit read. -/
def be32 (b0 b1 b2 b3 : Nat) : Nat :=
  ((b0 * 256 + b1) * 256 + b2) * 256 + b3

/-- control::parse_ack_message. Modelled from the spec: the ACK body is an
error_code u32 (big-endian); the parser lives in the missing protocol
module. -/
def parse_ack_message : List Nat → Except String Nat
  | b0 :: b1 :: b2 :: b3 :: _ => Except.ok (be32 b0 b1 b2 b3)
  | _ => Except.error "unable to parse ACK message"

/-- HupMessage::from_bytes. Modelled from the spec: the HUP body is a
session_id u32 followed by an error_code u32 (big-endian); the parser lives
in the missing protocol module. -/
def parse_hup_message : List Nat → Except String (Nat × Nat)
  | b0 :: b1 :: b2 :: b3 :: b4 :: b5 :: b6 :: b7 :: _ =>
      Except.ok (be32 b0 b1 b2 b3, be32 b4 b5 b6 b7)
  | _ => Except.error "unable to parse HUP message"

/-- ConnectionHandler::process_handshake_ack: parse the ACK error code; 0
switches the protocol state to Established and starts the UPDATE and PING
timers, anything else refuses the registration. The source panics when
called outside the Handshake state; the model returns the panic message as
an error on that (unreachable) branch. -/
def process_handshake_ack (body : List Nat) (e : ConnectionHandler) : ConnectionHandler × CtrlResult :=
  if e.state = ProtocolState.Handshake then
    match parse_ack_message body with
    | Except.error err => (e, Except.error err)
    | Except.ok ack =>
      if ack = 0 then
        ({ e with
            state := ProtocolState.Established,
            timers := e.timers ++
              [(TimerEvent.Update, UPDATE_CHECK_PERIOD), (TimerEvent.Ping, PING_PERIOD)] },
          Except.ok none)
      else
        (e, Except.error "Arrow REGISTER failed")
  else
    (e, Except.error "unexpected protocol state")

/-- ConnectionHandler::process_ack_message: pop the head of the expected-ACK
queue, clear the ACK timeout if the queue drained and re-arm it otherwise,
then match the popped id against the incoming one. -/
def process_ack_message (msg_id : Nat) (body : List Nat) (now : Nat) (e : ConnectionHandler) : ConnectionHandler × CtrlResult :=
  let expected_ack := e.expected_acks.head?
  let rest := e.expected_acks.tail
  let e1 :=
    { e with
      expected_acks := rest,
      ack_tout := if rest.isEmpty then e.ack_tout.clear else e.ack_tout.set now CONNECTION_TIMEOUT }
  match expected_ack with
  | some expected =>
    if msg_id = expected then
      if e1.state = ProtocolState.Handshake then
        process_handshake_ack body e1
      else
        (e1, Except.ok none)
    else
      (e1, Except.error "unexpected ACK message ID")
  | none => (e1, Except.error "no ACK message expected")

/-- ConnectionHandler::process_ping_message: only legal in the Established
state, answered by an ACK with error code 0. -/
def process_ping_message (msg_id : Nat) (now : Nat) (e : ConnectionHandler) : ConnectionHandler × CtrlResult :=
  if e.state = ProtocolState.Established then
    (send_ack_message msg_id 0 now e, Except.ok none)
  else
    (e, Except.error "cannot handle PING message in the Handshake state")

/-- ConnectionHandler::process_redirect_message: only legal in the
Established state; the body is read up to the first NUL byte (CStr) and the
resulting address is returned as the redirect result. Strings are
represented by their UTF-8 bytes, so the lossy UTF-8 decoding of the source
is the identity on the extracted bytes. -/
def process_redirect_message (body : List Nat) (e : ConnectionHandler) : ConnectionHandler × CtrlResult :=
  if e.state = ProtocolState.Established then
    (e, Except.ok (some (body.takeWhile fun b => b != 0)))
  else
    (e, Except.error "cannot handle REDIRECT message in the Handshake state")

/-- ConnectionHandler::process_hup_message: only legal in the Established
state; the named session is destroyed and the received error code is
discarded. -/
def process_hup_message (body : List Nat) (e : ConnectionHandler) : ConnectionHandler × CtrlResult :=
  if e.state = ProtocolState.Established then
    match parse_hup_message body with
    | Except.error err => (e, Except.error err)
    | Except.ok (session_id, _error_code) =>
      (remove_session_context session_id e, Except.ok none)
  else
    (e, Except.error "cannot handle HUP message in the Handshake state")

/-- ConnectionHandler::process_command: forward the command through the
external channel; a failed send is only logged. The channel outcome is an
oracle input. -/
def process_command (send_ok : Bool) (cmd : Command) (e : ConnectionHandler) : ConnectionHandler × CtrlResult :=
  (if send_ok then { e with cmds := e.cmds ++ [cmd] } else e, Except.ok none)

/-- ConnectionHandler::process_status_request. -/
def process_status_request (msg_id : Nat) (scanning : Bool) (now : Nat) (e : ConnectionHandler) : ConnectionHandler × CtrlResult :=
  (send_status msg_id scanning now e, Except.ok none)

/-- ConnectionHandler::process_control_message, taking the already parsed
control header and body: parse_control_message rejects the UNKNOWN type
before dispatch; the dispatch handles ACK, PING, REDIRECT, HUP,
RESET_SVC_TABLE, SCAN_NETWORK and GET_STATUS and refuses every other type. -/
def process_control_message (scanning send_ok : Bool) (t : ControlMessageType) (msg_id : Nat) (body : List Nat) (now : Nat) (e : ConnectionHandler) : ConnectionHandler × CtrlResult :=
  if t = ControlMessageType.unknown then
    (e, Except.error "unknown Control Protocol message type")
  else
    match t with
    | ControlMessageType.ack => process_ack_message msg_id body now e
    | ControlMessageType.ping => process_ping_message msg_id now e
    | ControlMessageType.redirect => process_redirect_message body e
    | ControlMessageType.hup => process_hup_message body e
    | ControlMessageType.reset_svc_table => process_command send_ok Command.ResetServiceTable e
    | ControlMessageType.scan_network => process_command send_ok Command.ScanNetwork e
    | ControlMessageType.get_status => process_status_request msg_id scanning now e
    | mt => (e, Except.error ("cannot handle Control Protocol message type: " ++ mt.type_name))

/-- ConnectionHandler::create_session_context: nothing happens when a
context already exists; otherwise the service is looked up in the config and
a new context is connected, registered and scheduled. The local TCP connect
outcome is an oracle input; a failed connect is only logged. Returns the
updated engine and whether a context for the session exists afterwards
(the source returns sessions.get_mut(&session_id)). -/
def create_session_context (cfg : Config) (connect_ok : Bool) (service_id session_id : Nat) (e : ConnectionHandler) : ConnectionHandler × Bool :=
  let e1 :=
    if (alookup session_id e.sessions).isSome then e
    else
      match cfg.get service_id with
      | some svc =>
        match svc.address with
        | some _addr =>
          if connect_ok then
            let ctx : SessionContext := ⟨service_id, session_id, [], [], Timeout.new⟩
            { e with
              sessions := e.sessions ++ [(session_id, ctx)],
              session_queue := e.session_queue ++ [session_id],
              timers := e.timers ++
                [(TimerEvent.TimeoutCheck (session2token session_id), TIMEOUT_CHECK_PERIOD)] }
          else e
        | none => e
      | none => e
  (e1, (alookup session_id e1.sessions).isSome)

/-- ConnectionHandler::process_service_request: only legal in the
Established state; the frame body is forwarded into the session context, and
a HUP with error code 1 is sent back when no context could be produced. -/
def process_service_request (cfg : Config) (connect_ok : Bool) (service_id session_id : Nat) (body : List Nat) (now : Nat) (e : ConnectionHandler) : ConnectionHandler × CtrlResult :=
  if e.state = ProtocolState.Established then
    let r := create_session_context cfg connect_ok service_id session_id e
    if r.2 then
      let e2 :=
        { r.1 with
          sessions := aupdate session_id (fun ctx => ctx.send_message body now) r.1.sessions }
      (e2, Except.ok none)
    else
      (send_hup_message session_id 1 now r.1, Except.ok none)
  else
    (e, Except.error "cannot handle service requests in the Handshake state")

/-- One iteration of the round-robin loop of
ConnectionHandler::fill_output_buffer: stop when the output buffer is full,
pop the head of the session queue, and when a context exists move one chunk
of at most 32768 bytes of its input buffer into the output buffer and
re-enqueue the session at the tail. -/
def fill_step (now : Nat) (e : ConnectionHandler) : ConnectionHandler :=
  if e.output_buffer.is_full then e
  else
    match e.session_queue with
    | [] => e
    | session_id :: rest =>
      match alookup session_id e.sessions with
      | none => { e with session_queue := rest }
      | some ctx =>
        let len := if ctx.input_buffer.isEmpty then 0 else min 32768 ctx.input_buffer.length
        let e1 :=
          if ctx.input_buffer.isEmpty then
            { e with session_queue := rest }
          else
            let msg : ArrowMsg :=
              ⟨ctx.service_id, ctx.session_id,
                ArrowPayload.data (ctx.input_buffer.take (min 32768 ctx.input_buffer.length))⟩
            let e' :=
              if e.output_buffer.is_empty then
                { e with write_tout := e.write_tout.set now CONNECTION_TIMEOUT }
              else e
            { e' with
              session_queue := rest,
              output_buffer := ⟨e'.output_buffer.capacity, e'.output_buffer.frames ++ [msg]⟩,
              sent_log := e'.sent_log ++ [msg] }
        let e2 :=
          { e1 with
            sessions :=
              aupdate session_id (fun c => { c with input_buffer := c.input_buffer.drop len }) e1.sessions }
        { e2 with session_queue := e2.session_queue ++ [session_id] }

/-- ConnectionHandler::fill_output_buffer: the loop runs once per session
queued at entry (a single round-robin pass). -/
def fill_output_buffer (now : Nat) (e : ConnectionHandler) : ConnectionHandler :=
  (fill_step now)^[e.session_queue.length] e

/-- ConnectionHandler::session_socket_ready, with the outcome of
SessionContext::socket_ready (local socket I/O) as an oracle input: a socket
error HUPs the session with error code 2, a hangup with error code 0, and in
both cases the session is destroyed; a positive amount of buffered input
only re-enables tunnel write interest. -/
def session_socket_ready (session_id : Nat) (outcome : Except String (Option Nat)) (now : Nat) (e : ConnectionHandler) : ConnectionHandler × CtrlResult :=
  match outcome with
  | Except.error _ =>
    (remove_session_context session_id (send_hup_message session_id 2 now e), Except.ok none)
  | Except.ok none =>
    (remove_session_context session_id (send_hup_message session_id 0 now e), Except.ok none)
  | Except.ok (some _) => (e, Except.ok none)

/-- The result bookkeeping of Handler::ready: a redirect or an error is
stored as the engine result, and the event loop is shut down as soon as a
result is present. -/
def ready_result (r : CtrlResult) (e : ConnectionHandler) : ConnectionHandler :=
  let e1 :=
    match r with
    | Except.ok none => e
    | Except.ok (some addr) => { e with result := some (Except.ok addr) }
    | Except.error err => { e with result := some (Except.error err) }
  if e1.result.isSome then { e1 with shutdown_flag := true } else e1

/-- The result bookkeeping of Handler::timeout. -/
def timer_result (r : Except String Unit) (e : ConnectionHandler) : ConnectionHandler :=
  let e1 :=
    match r with
    | Except.error err => { e with result := some (Except.error err) }
    | Except.ok _ => e
  if e1.result.isSome then { e1 with shutdown_flag := true } else e1

/-- One external event delivered to the connection handler, together with
the oracle inputs the corresponding source path reads: the config snapshot,
the command channel outcome, the scanning flag, the local connect outcome
and the session socket outcome. A control event is an Arrow Message with
service id 0 whose control header has already been parsed, a service event
one with a non-zero service id. -/
inductive Event where
  | control (t : ControlMessageType) (msg_id : Nat) (body : List Nat) (scanning send_ok : Bool)
  | service (cfg : Config) (connect_ok : Bool) (service_id session_id : Nat) (body : List Nat)
  | timerUpdate (cfg : Config)
  | timerPing
  | timerTimeout (tok : Nat)
  | sessionReady (session_id : Nat) (outcome : Except String (Option Nat))

/-- The combined Handler::ready / Handler::timeout dispatch on one event. -/
def step (now : Nat) (e : ConnectionHandler) (ev : Event) : ConnectionHandler :=
  match ev with
  | Event.control t msg_id body scanning send_ok =>
    let r := process_control_message scanning send_ok t msg_id body now e
    ready_result r.2 r.1
  | Event.service cfg connect_ok service_id session_id body =>
    let r := process_service_request cfg connect_ok service_id session_id body now e
    ready_result r.2 r.1
  | Event.timerUpdate cfg =>
    let r := te_check_update cfg now e
    timer_result r.2 r.1
  | Event.timerPing =>
    let r := te_check_connection now e
    timer_result r.2 r.1
  | Event.timerTimeout tok =>
    let r := te_check_timeout tok now e
    timer_result r.2 r.1
  | Event.sessionReady session_id outcome =>
    let r := session_socket_ready session_id outcome now e
    ready_result r.2 r.1

/-- A run of the event loop over a list of events at a fixed instant. -/
def run (now : Nat) (e : ConnectionHandler) (evs : List Event) : ConnectionHandler :=
  evs.foldl (step now) e

/-- The expected contribution of one queued session to a single
round-robin pass of fill_output_buffer: a session with a context and a
non-empty input buffer contributes one Arrow Message carrying the first
min(32768, buffered) bytes of its input buffer. -/
def contrib_msg (sessions : List (Nat × SessionContext)) (session_id : Nat) : Option ArrowMsg :=
  match alookup session_id sessions with
  | some ctx =>
    if ctx.input_buffer.isEmpty then none
    else
      some ⟨ctx.service_id, ctx.session_id,
        ArrowPayload.data (ctx.input_buffer.take (min 32768 ctx.input_buffer.length))⟩
  | none => none

/-- Dropping one egress chunk from a session input buffer. -/
def drop_chunk (ctx : SessionContext) : SessionContext :=
  { ctx with input_buffer := ctx.input_buffer.drop (min 32768 ctx.input_buffer.length) }

/-- Whether a queued session id has a session context. -/
def has_ctx (sessions : List (Nat × SessionContext)) (session_id : Nat) : Bool :=
  (alookup session_id sessions).isSome

/-- The table version carried by an Arrow Message, when it is a REGISTER or
UPDATE control message. -/
def table_version? (m : ArrowMsg) : Option Nat :=
  match m.payload with
  | ArrowPayload.ctrl c =>
    match c.body with
    | CtrlBody.registerB _ _ _ table => some table.version
    | CtrlBody.updateB table => some table.version
    | _ => none
  | ArrowPayload.data _ => none

/-- The version of the most recent REGISTER or UPDATE message in a message
trace. -/
def last_table_version (log : List ArrowMsg) : Option Nat :=
  (log.filterMap table_version?).getLast?

/-- The C9 invariant: last_update equals the version of the table carried by
the most recent REGISTER or UPDATE message. -/
def table_inv (e : ConnectionHandler) : Prop :=
  e.last_update = last_table_version e.sent_log

/-- A handler with no sessions and empty buffers, used as the base of the
concrete instances below (the non-ghost fields match the initial values in
ConnectionHandler::new). -/
def base_handler : ConnectionHandler :=
  { sessions := []
    session_queue := []
    output_buffer := ⟨262144, []⟩
    sent_log := []
    state := ProtocolState.Handshake
    last_update := none
    write_tout := Timeout.new
    ack_tout := Timeout.new
    msg_id := 0
    expected_acks := []
    timers := []
    cmds := []
    result := none
    shutdown_flag := false }

/-- ConnectionHandler::new: the fresh handler immediately sends the REGISTER
request and starts the timeout checker for the Arrow socket. -/
def ConnectionHandler.new (cfg : Config) (mac : List Nat) (now : Nat) : ConnectionHandler :=
  let e := create_register_request cfg mac now base_handler
  { e with timers := e.timers ++ [(TimerEvent.TimeoutCheck 0, TIMEOUT_CHECK_PERIOD)] }

/-- A handler in the Handshake state with the REGISTER ACK outstanding, as
right after ConnectionHandler::new (ghost logs cleared for readability). -/
def hs_handler : ConnectionHandler :=
  { base_handler with expected_acks := [0], msg_id := 1, ack_tout := ⟨some 20000⟩ }

/-- A handler in the Established state with no sessions. -/
def est_handler : ConnectionHandler :=
  { base_handler with state := ProtocolState.Established }

/-- A config snapshot with one plain service (id 1) and one Control Protocol
service (id 2, no address). -/
def sample_cfg : Config :=
  ⟨[1, 2], [3], 5, [7, 7], [(1, ⟨some 7⟩), (2, ⟨none⟩)]⟩

/-- A session context with buffered input, for the concrete fill instances. -/
def fill_ctx1 : SessionContext := ⟨1, 3, [10, 11, 12], [], Timeout.new⟩

/-- A session context with an empty input buffer. -/
def fill_ctx2 : SessionContext := ⟨2, 4, [], [], Timeout.new⟩

/-- An Established handler with two sessions (one with buffered input, one
without) and a stale queue entry (9) with no context. -/
def fill_handler : ConnectionHandler :=
  { est_handler with
    sessions := [(3, fill_ctx1), (4, fill_ctx2)],
    session_queue := [3, 4, 9] }

/-- A handler whose tunnel output buffer is full (capacity 0). -/
def full_handler : ConnectionHandler :=
  { est_handler with output_buffer := ⟨0, []⟩, session_queue := [5] }

/- ===================== theorems ===================== -/

theorem alookup_nil {α : Type} (k : Nat) : alookup k ([] : List (Nat × α)) = none := rfl

theorem alookup_cons {α : Type} (k k' : Nat) (v : α) (t : List (Nat × α)) :
    alookup k ((k', v) :: t) = if k' = k then some v else alookup k t := rfl

theorem alookup_aupdate_self {α : Type} (k : Nat) (f : α → α) (l : List (Nat × α)) :
    alookup k (aupdate k f l) = (alookup k l).map f := by
  induction l with
  | nil => rfl
  | cons p t ih =>
    obtain ⟨k', v⟩ := p
    simp only [aupdate, List.map_cons, alookup] at *
    by_cases h : k' = k
    · simp [h]
    · simp [h, ih]

theorem alookup_aupdate_ne {α : Type} (k k' : Nat) (f : α → α) (l : List (Nat × α))
    (h : k' ≠ k) : alookup k' (aupdate k f l) = alookup k' l := by
  induction l with
  | nil => rfl
  | cons p t ih =>
    obtain ⟨k'', v⟩ := p
    simp only [aupdate, List.map_cons, alookup] at *
    by_cases hk : k'' = k'
    · subst hk
      simp [if_neg (fun hc : k'' = k => h (hc ▸ rfl)), ih]
    · simp [hk, ih]

theorem alookup_eq_none_forall {α : Type} (k : Nat) (l : List (Nat × α))
    (h : alookup k l = none) : ∀ p ∈ l, p.1 ≠ k := by
  induction l with
  | nil => intro p hp; cases hp
  | cons q t ih =>
    obtain ⟨k', v⟩ := q
    intro p hp
    simp only [alookup] at h
    by_cases hk : k' = k
    · simp [hk] at h
    · rw [if_neg hk] at h
      rcases List.mem_cons.mp hp with h1 | h1
      · subst h1; exact hk
      · exact ih h p h1

theorem aupdate_keys {α : Type} (k : Nat) (f : α → α) (l : List (Nat × α)) :
    (aupdate k f l).map Prod.fst = l.map Prod.fst := by
  simp [aupdate, List.map_map, Function.comp_def]

theorem timeout_clear_eq (t : Timeout) : t.clear = ⟨none⟩ := rfl

theorem timeout_set_eq (t : Timeout) (now dur : Nat) : t.set now dur = ⟨some (now + dur)⟩ := rfl

theorem state_send_message (msg : ArrowMsg) (now : Nat) (e : ConnectionHandler) :
    (send_message msg now e).state = e.state := by
  simp only [send_message]
  split <;> rfl

theorem fields_send_message (msg : ArrowMsg) (now : Nat) (e : ConnectionHandler) :
    (send_message msg now e).state = e.state ∧
    (send_message msg now e).last_update = e.last_update ∧
    (send_message msg now e).sent_log = e.sent_log ++ [msg] ∧
    (send_message msg now e).sessions = e.sessions ∧
    (send_message msg now e).session_queue = e.session_queue ∧
    (send_message msg now e).timers = e.timers ∧
    (send_message msg now e).expected_acks = e.expected_acks ∧
    (send_message msg now e).result = e.result ∧
    (send_message msg now e).msg_id = e.msg_id := by
  simp only [send_message]
  split <;> exact ⟨rfl, rfl, rfl, rfl, rfl, rfl, rfl, rfl, rfl⟩

theorem fields_send_control_message (c : ControlMessage) (now : Nat) (e : ConnectionHandler) :
    (send_control_message c now e).state = e.state ∧
    (send_control_message c now e).last_update = e.last_update ∧
    (send_control_message c now e).sent_log = e.sent_log ++ [⟨0, 0, ArrowPayload.ctrl c⟩] ∧
    (send_control_message c now e).sessions = e.sessions ∧
    (send_control_message c now e).session_queue = e.session_queue ∧
    (send_control_message c now e).timers = e.timers ∧
    (send_control_message c now e).expected_acks = e.expected_acks ∧
    (send_control_message c now e).result = e.result ∧
    (send_control_message c now e).msg_id = e.msg_id :=
  fields_send_message ⟨0, 0, ArrowPayload.ctrl c⟩ now e

theorem fields_send_hup_message (session_id error_code now : Nat) (e : ConnectionHandler) :
    (send_hup_message session_id error_code now e).state = e.state ∧
    (send_hup_message session_id error_code now e).last_update = e.last_update ∧
    (send_hup_message session_id error_code now e).sent_log =
      e.sent_log ++ [⟨0, 0, ArrowPayload.ctrl ⟨e.msg_id, CtrlBody.hupB session_id error_code⟩⟩] ∧
    (send_hup_message session_id error_code now e).sessions = e.sessions ∧
    (send_hup_message session_id error_code now e).session_queue = e.session_queue ∧
    (send_hup_message session_id error_code now e).timers = e.timers ∧
    (send_hup_message session_id error_code now e).expected_acks = e.expected_acks ∧
    (send_hup_message session_id error_code now e).result = e.result := by
  have h := fields_send_control_message ⟨e.msg_id, CtrlBody.hupB session_id error_code⟩ now
    { e with msg_id := (e.msg_id + 1) % 65536 }
  exact ⟨h.1, h.2.1, h.2.2.1, h.2.2.2.1, h.2.2.2.2.1, h.2.2.2.2.2.1, h.2.2.2.2.2.2.1,
    h.2.2.2.2.2.2.2.1⟩

theorem process_ack_message_nil (msg_id : Nat) (body : List Nat) (now : Nat)
    (e : ConnectionHandler) (hq : e.expected_acks = []) :
    process_ack_message msg_id body now e =
      ({ e with expected_acks := [], ack_tout := Timeout.new },
        Except.error "no ACK message expected") := by
  simp only [process_ack_message, hq]
  rfl

theorem process_ack_message_cons (msg_id now hd : Nat) (tl body : List Nat)
    (e : ConnectionHandler) (hq : e.expected_acks = hd :: tl) :
    process_ack_message msg_id body now e =
      (if msg_id = hd then
        if e.state = ProtocolState.Handshake then
          process_handshake_ack body
            { e with
              expected_acks := tl,
              ack_tout := if tl.isEmpty then ⟨none⟩ else ⟨some (now + CONNECTION_TIMEOUT)⟩ }
        else
          ({ e with
             expected_acks := tl,
             ack_tout := if tl.isEmpty then ⟨none⟩ else ⟨some (now + CONNECTION_TIMEOUT)⟩ },
            Except.ok none)
      else
        ({ e with
           expected_acks := tl,
           ack_tout := if tl.isEmpty then ⟨none⟩ else ⟨some (now + CONNECTION_TIMEOUT)⟩ },
          Except.error "unexpected ACK message ID")) := by
  simp only [process_ack_message, hq]
  rfl

theorem fields_process_handshake_ack (body : List Nat) (e : ConnectionHandler) :
    (process_handshake_ack body e).1.expected_acks = e.expected_acks ∧
    (process_handshake_ack body e).1.ack_tout = e.ack_tout ∧
    (process_handshake_ack body e).1.sent_log = e.sent_log ∧
    (process_handshake_ack body e).1.last_update = e.last_update ∧
    (process_handshake_ack body e).1.sessions = e.sessions ∧
    (process_handshake_ack body e).1.session_queue = e.session_queue ∧
    (process_handshake_ack body e).1.msg_id = e.msg_id := by
  unfold process_handshake_ack
  split
  · split
    · exact ⟨rfl, rfl, rfl, rfl, rfl, rfl, rfl⟩
    · split <;> exact ⟨rfl, rfl, rfl, rfl, rfl, rfl, rfl⟩
  · exact ⟨rfl, rfl, rfl, rfl, rfl, rfl, rfl⟩

theorem process_handshake_ack_ok0 (body : List Nat) (e : ConnectionHandler)
    (hs : e.state = ProtocolState.Handshake) (hp : parse_ack_message body = Except.ok 0) :
    process_handshake_ack body e =
      ({ e with
         state := ProtocolState.Established,
         timers := e.timers ++
           [(TimerEvent.Update, UPDATE_CHECK_PERIOD), (TimerEvent.Ping, PING_PERIOD)] },
        Except.ok none) := by
  simp [process_handshake_ack, hs, hp]

theorem process_handshake_ack_refused (body : List Nat) (e : ConnectionHandler) (code : Nat)
    (hs : e.state = ProtocolState.Handshake) (hp : parse_ack_message body = Except.ok code)
    (hc : code ≠ 0) :
    process_handshake_ack body e = (e, Except.error "Arrow REGISTER failed") := by
  simp [process_handshake_ack, hs, hp, hc]

theorem st_send_control (c : ControlMessage) (now : Nat) (e : ConnectionHandler) :
    (send_control_message c now e).state = e.state :=
  state_send_message _ now e

theorem st_send_unconfirmed (c : ControlMessage) (now : Nat) (e : ConnectionHandler) :
    (send_unconfirmed_control_message c now e).state = e.state := by
  unfold send_unconfirmed_control_message
  split <;> simp [st_send_control]

theorem st_send_update (table : ServiceTable) (now : Nat) (e : ConnectionHandler) :
    (send_update_message table now e).state = e.state := by
  unfold send_update_message
  simp [st_send_control]

theorem st_send_ping (now : Nat) (e : ConnectionHandler) :
    (send_ping_message now e).state = e.state := by
  unfold send_ping_message
  simp [st_send_unconfirmed]

theorem st_send_hup (session_id error_code now : Nat) (e : ConnectionHandler) :
    (send_hup_message session_id error_code now e).state = e.state :=
  (fields_send_hup_message session_id error_code now e).1

theorem st_send_status (request_id : Nat) (scanning : Bool) (now : Nat) (e : ConnectionHandler) :
    (send_status request_id scanning now e).state = e.state := by
  unfold send_status
  simp [st_send_control]

theorem st_send_ack (msg_id error_code now : Nat) (e : ConnectionHandler) :
    (send_ack_message msg_id error_code now e).state = e.state := by
  unfold send_ack_message
  simp [st_send_control]

theorem st_check_update (cfg : Config) (now : Nat) (e : ConnectionHandler) :
    (check_update cfg now e).state = e.state := by
  unfold check_update
  split <;> simp [st_send_update]

theorem st_create_session (cfg : Config) (connect_ok : Bool) (service_id session_id : Nat)
    (e : ConnectionHandler) :
    (create_session_context cfg connect_ok service_id session_id e).1.state = e.state := by
  unfold create_session_context
  repeat' split <;> try rfl

theorem st_process_service (cfg : Config) (connect_ok : Bool) (service_id session_id : Nat)
    (body : List Nat) (now : Nat) (e : ConnectionHandler) :
    (process_service_request cfg connect_ok service_id session_id body now e).1.state = e.state := by
  simp only [process_service_request]
  split
  · split
    · simp [st_create_session]
    · simp [st_send_hup, st_create_session]
  · rfl

theorem st_process_ping (msg_id now : Nat) (e : ConnectionHandler) :
    (process_ping_message msg_id now e).1.state = e.state := by
  unfold process_ping_message
  split <;> simp [st_send_ack]

theorem st_process_redirect (body : List Nat) (e : ConnectionHandler) :
    (process_redirect_message body e).1.state = e.state := by
  unfold process_redirect_message
  split <;> rfl

theorem st_process_hup (body : List Nat) (e : ConnectionHandler) :
    (process_hup_message body e).1.state = e.state := by
  unfold process_hup_message
  repeat' split <;> try rfl

theorem st_process_command (send_ok : Bool) (cmd : Command) (e : ConnectionHandler) :
    (process_command send_ok cmd e).1.state = e.state := by
  unfold process_command
  split <;> rfl

theorem st_process_status_request (msg_id : Nat) (scanning : Bool) (now : Nat)
    (e : ConnectionHandler) :
    (process_status_request msg_id scanning now e).1.state = e.state := by
  unfold process_status_request
  simp [st_send_status]

theorem st_check_arrow_timeout (now : Nat) (e : ConnectionHandler) :
    (check_arrow_timeout now e).1.state = e.state := by
  unfold check_arrow_timeout
  split <;> rfl

theorem st_check_session_timeout (session_id now : Nat) (e : ConnectionHandler) :
    (check_session_timeout session_id now e).1.state = e.state := by
  simp only [check_session_timeout]
  repeat' split <;> simp [remove_session_context, st_send_hup]

theorem st_te_check_timeout (tok now : Nat) (e : ConnectionHandler) :
    (te_check_timeout tok now e).1.state = e.state := by
  unfold te_check_timeout
  split <;> simp [st_check_arrow_timeout, st_check_session_timeout]

theorem st_te_check_update (cfg : Config) (now : Nat) (e : ConnectionHandler) :
    (te_check_update cfg now e).1.state = e.state := by
  unfold te_check_update
  simp [st_check_update]

theorem st_te_check_connection (now : Nat) (e : ConnectionHandler) :
    (te_check_connection now e).1.state = e.state := by
  unfold te_check_connection
  simp [st_send_ping]

theorem st_session_ready (session_id : Nat) (outcome : Except String (Option Nat)) (now : Nat)
    (e : ConnectionHandler) :
    (session_socket_ready session_id outcome now e).1.state = e.state := by
  unfold session_socket_ready
  repeat' split <;> simp [remove_session_context, st_send_hup]

theorem st_ready_result (r : CtrlResult) (e : ConnectionHandler) :
    (ready_result r e).state = e.state := by
  simp only [ready_result]
  cases r with
  | error err => split <;> rfl
  | ok o =>
    cases o with
    | none => split <;> rfl
    | some addr => split <;> rfl

theorem st_timer_result (r : Except String Unit) (e : ConnectionHandler) :
    (timer_result r e).state = e.state := by
  simp only [timer_result]
  cases r with
  | error err => split <;> rfl
  | ok u => split <;> rfl

theorem st_process_control_ne_ack (scanning send_ok : Bool) (t : ControlMessageType)
    (msg_id : Nat) (body : List Nat) (now : Nat) (e : ConnectionHandler)
    (ht : t ≠ ControlMessageType.ack) :
    (process_control_message scanning send_ok t msg_id body now e).1.state = e.state := by
  unfold process_control_message
  split
  · rfl
  · cases t with
    | ack => exact absurd rfl ht
    | ping => simp [st_process_ping]
    | redirect => simp [st_process_redirect]
    | hup => simp [st_process_hup]
    | reset_svc_table => simp [st_process_command]
    | scan_network => simp [st_process_command]
    | get_status => simp [st_process_status_request]
    | register => rfl
    | update => rfl
    | status => rfl
    | unknown => rfl

theorem st_process_ack (msg_id : Nat) (body : List Nat) (now : Nat) (e : ConnectionHandler) :
    (process_ack_message msg_id body now e).1.state = e.state ∨
    ((process_ack_message msg_id body now e).1.state = ProtocolState.Established ∧
      ∃ rest, e.expected_acks = msg_id :: rest ∧ parse_ack_message body = Except.ok 0) := by
  cases hq : e.expected_acks with
  | nil =>
    left
    rw [process_ack_message_nil msg_id body now e hq]
  | cons hd tl =>
    rw [process_ack_message_cons msg_id now hd tl body e hq]
    by_cases hm : msg_id = hd
    · simp only [if_pos hm]
      by_cases hs : e.state = ProtocolState.Handshake
      · simp only [if_pos hs]
        cases hp : parse_ack_message body with
        | error err =>
          left
          simp [process_handshake_ack, hs, hp]
        | ok code =>
          by_cases hc : code = 0
          · right
            subst hc
            constructor
            · simp [process_handshake_ack, hs, hp]
            · exact ⟨tl, by rw [hm], rfl⟩
          · left
            simp [process_handshake_ack, hs, hp, hc]
      · simp only [if_neg hs]
        left
        trivial
    · simp only [if_neg hm]
      left
      trivial

theorem st_step (now : Nat) (e : ConnectionHandler) (ev : Event) :
    (step now e ev).state = e.state ∨
    ((step now e ev).state = ProtocolState.Established ∧
      ∃ mid body scanning send_ok rest,
        ev = Event.control ControlMessageType.ack mid body scanning send_ok ∧
        e.expected_acks = mid :: rest ∧ parse_ack_message body = Except.ok 0) := by
  cases ev with
  | control t mid body scanning send_ok =>
    by_cases ht : t = ControlMessageType.ack
    · subst ht
      have hpc : process_control_message scanning send_ok ControlMessageType.ack mid body now e =
          process_ack_message mid body now e := by
        simp [process_control_message]
      rcases st_process_ack mid body now e with h | ⟨h1, rest, h2, h3⟩
      · left
        simp [step, hpc, st_ready_result, h]
      · right
        refine ⟨?_, mid, body, scanning, send_ok, rest, rfl, h2, h3⟩
        simp [step, hpc, st_ready_result, h1]
    · left
      simp [step, st_ready_result, st_process_control_ne_ack scanning send_ok t mid body now e ht]
  | service cfg connect_ok service_id session_id body =>
    left
    simp [step, st_ready_result, st_process_service]
  | timerUpdate cfg =>
    left
    simp [step, st_timer_result, st_te_check_update]
  | timerPing =>
    left
    simp [step, st_timer_result, st_te_check_connection]
  | timerTimeout tok =>
    left
    simp [step, st_timer_result, st_te_check_timeout]
  | sessionReady session_id outcome =>
    left
    simp [step, st_ready_result, st_session_ready]

/-- C7: can_read consults the readable flag in the Ok and ReaderWantRead
states and the writable flag in ReaderWantWrite, and is false in the two
writer-blocked states; can_write symmetrically consults writable in Ok and
WriterWantWrite and readable in WriterWantRead, and is false in the two
reader-blocked states. -/
theorem c7_readiness_projection (st : ArrowStreamState) (es : EventSet) :
    (ArrowStream.can_read ⟨st⟩ es = true ↔
      (((st = ArrowStreamState.Ok ∨ st = ArrowStreamState.ReaderWantRead) ∧ es.readable = true) ∨
        (st = ArrowStreamState.ReaderWantWrite ∧ es.writable = true))) ∧
    ((st = ArrowStreamState.WriterWantRead ∨ st = ArrowStreamState.WriterWantWrite) →
      ArrowStream.can_read ⟨st⟩ es = false) ∧
    (ArrowStream.can_write ⟨st⟩ es = true ↔
      (((st = ArrowStreamState.Ok ∨ st = ArrowStreamState.WriterWantWrite) ∧ es.writable = true) ∨
        (st = ArrowStreamState.WriterWantRead ∧ es.readable = true))) ∧
    ((st = ArrowStreamState.ReaderWantRead ∨ st = ArrowStreamState.ReaderWantWrite) →
      ArrowStream.can_write ⟨st⟩ es = false) := by
  cases st <;>
    simp [ArrowStream.can_read, ArrowStream.can_write]

theorem c7_readiness_projection_witness :
    ArrowStream.can_read ⟨ArrowStreamState.WriterWantRead⟩ ⟨true, true, false, false⟩ = false ∧
    ArrowStream.can_write ⟨ArrowStreamState.ReaderWantWrite⟩ ⟨true, true, false, false⟩ = false :=
  ⟨(c7_readiness_projection ArrowStreamState.WriterWantRead ⟨true, true, false, false⟩).2.1
      (Or.inl rfl),
    (c7_readiness_projection ArrowStreamState.ReaderWantWrite ⟨true, true, false, false⟩).2.2.2
      (Or.inr rfl)⟩

/-- C1 (amended): for every incoming ACK control message, the engine pops
the head of the expected-ACK queue: if the queue was empty, processing fails
with the protocol error "no ACK message expected"; if the popped msg_id
differs from the incoming ACK's msg_id, processing fails with the protocol
error "unexpected ACK message ID"; otherwise it succeeds when the state is
Established, while in the Handshake state the outcome is that of the
handshake-ACK processing (which itself fails on a non-zero error code).
After the pop, the ACK timeout is cleared if the queue is now empty and
re-armed to CONNECTION_TIMEOUT (20000 ms) otherwise. -/
theorem c1_ack_pop_discipline (now msg_id : Nat) (body : List Nat) (e : ConnectionHandler) :
    (e.expected_acks = [] →
      process_ack_message msg_id body now e =
        ({ e with expected_acks := [], ack_tout := Timeout.new },
          Except.error "no ACK message expected")) ∧
    (∀ hd tl, e.expected_acks = hd :: tl →
      (process_ack_message msg_id body now e).1.expected_acks = tl ∧
      (tl = [] → (process_ack_message msg_id body now e).1.ack_tout = Timeout.new) ∧
      (tl ≠ [] →
        (process_ack_message msg_id body now e).1.ack_tout = ⟨some (now + CONNECTION_TIMEOUT)⟩) ∧
      (msg_id ≠ hd →
        (process_ack_message msg_id body now e).2 = Except.error "unexpected ACK message ID") ∧
      (msg_id = hd → e.state = ProtocolState.Established →
        (process_ack_message msg_id body now e).2 = Except.ok none) ∧
      (msg_id = hd → e.state = ProtocolState.Handshake →
        process_ack_message msg_id body now e =
          process_handshake_ack body
            { e with
              expected_acks := tl,
              ack_tout := if tl.isEmpty then ⟨none⟩ else ⟨some (now + CONNECTION_TIMEOUT)⟩ })) := by
  constructor
  · intro h
    rw [process_ack_message_nil msg_id body now e h]
  · intro hd tl hq
    rw [process_ack_message_cons msg_id now hd tl body e hq]
    by_cases hm : msg_id = hd
    · by_cases hsk : e.state = ProtocolState.Handshake
      · simp only [if_pos hm, if_pos hsk]
        have hf := fields_process_handshake_ack body
          { e with
            expected_acks := tl,
            ack_tout := if tl.isEmpty then ⟨none⟩ else ⟨some (now + CONNECTION_TIMEOUT)⟩ }
        refine ⟨?_, ?_, ?_, ?_, ?_, ?_⟩
        · rw [hf.1]
        · intro ht
          subst ht
          rw [hf.2.1]
          rfl
        · intro ht
          rw [hf.2.1]
          cases tl with
          | nil => exact absurd rfl ht
          | cons a as => rfl
        · intro h
          exact absurd hm h
        · intro _ hE
          rw [hE] at hsk
          cases hsk
        · intro _ _
          trivial
      · simp only [if_pos hm, if_neg hsk]
        refine ⟨by trivial, ?_, ?_, ?_, ?_, ?_⟩
        · intro ht
          subst ht
          trivial
        · intro ht
          cases tl with
          | nil => exact absurd rfl ht
          | cons a as => trivial
        · intro h
          exact absurd hm h
        · intro _ _
          trivial
        · intro _ hH
          exact absurd hH hsk
    · simp only [if_neg hm]
      refine ⟨by trivial, ?_, ?_, ?_, ?_, ?_⟩
      · intro ht
        subst ht
        trivial
      · intro ht
        cases tl with
        | nil => exact absurd rfl ht
        | cons a as => trivial
      · intro _
        trivial
      · intro h
        exact absurd h hm
      · intro h
        exact absurd h hm

/-- C1 counterexample: in the Handshake state an ACK whose msg_id matches
the head of the expected-ACK queue can still fail: with an ACK body carrying
error code 1 the engine fails with "Arrow REGISTER failed", refuting the
claim's unconditional "otherwise it succeeds". -/
theorem c1_counterexample :
    hs_handler.expected_acks = [0] ∧
    (process_ack_message 0 [0, 0, 0, 1] 50 hs_handler).2 =
      Except.error "Arrow REGISTER failed" :=
  ⟨rfl, rfl⟩

theorem c1_ack_pop_discipline_witness :
    hs_handler.expected_acks = 0 :: [] ∧
    (process_ack_message 7 [] 100 hs_handler).1.expected_acks = [] ∧
    (process_ack_message 7 [] 100 hs_handler).1.ack_tout = Timeout.new ∧
    (process_ack_message 7 [] 100 hs_handler).2 = Except.error "unexpected ACK message ID" := by
  have h := (c1_ack_pop_discipline 100 7 [] hs_handler).2 0 [] rfl
  exact ⟨rfl, h.1, h.2.1 rfl, h.2.2.2.1 (by decide)⟩

/-- C2: in the Handshake state, when an ACK matching the head of the
expected-ACK queue arrives, the engine parses the ACK body's error code:
0 switches the protocol state to Established, starts the Update timer
(5000 ms) and the Ping timer (60000 ms) and succeeds; a non-zero code fails
with the protocol error "Arrow REGISTER failed"; and no other event makes
the state leave Handshake. -/
theorem c2_handshake_transition (now msg_id : Nat) (body : List Nat) (e : ConnectionHandler)
    (tl : List Nat) (hs : e.state = ProtocolState.Handshake)
    (hq : e.expected_acks = msg_id :: tl) :
    (parse_ack_message body = Except.ok 0 →
      (process_ack_message msg_id body now e).1.state = ProtocolState.Established ∧
      (process_ack_message msg_id body now e).1.timers =
        e.timers ++ [(TimerEvent.Update, UPDATE_CHECK_PERIOD), (TimerEvent.Ping, PING_PERIOD)] ∧
      (process_ack_message msg_id body now e).2 = Except.ok none) ∧
    (∀ code, parse_ack_message body = Except.ok code → code ≠ 0 →
      (process_ack_message msg_id body now e).2 = Except.error "Arrow REGISTER failed" ∧
      (process_ack_message msg_id body now e).1.state = ProtocolState.Handshake) ∧
    (∀ ev, (step now e ev).state = ProtocolState.Established →
      ∃ mid body' scanning send_ok rest,
        ev = Event.control ControlMessageType.ack mid body' scanning send_ok ∧
        e.expected_acks = mid :: rest ∧ parse_ack_message body' = Except.ok 0) := by
  refine ⟨?_, ?_, ?_⟩
  · intro hp
    rw [process_ack_message_cons msg_id now msg_id tl body e hq]
    simp only [if_pos rfl, if_pos hs]
    refine ⟨?_, ?_, ?_⟩ <;> simp [process_handshake_ack, hs, hp]
  · intro code hp hc
    rw [process_ack_message_cons msg_id now msg_id tl body e hq]
    simp only [if_pos rfl, if_pos hs]
    constructor <;> simp [process_handshake_ack, hs, hp, hc]
  · intro ev hE
    rcases st_step now e ev with h | ⟨h1, mid, body', scanning, send_ok, rest, hev, hq', hp'⟩
    · rw [h, hs] at hE
      cases hE
    · exact ⟨mid, body', scanning, send_ok, rest, hev, hq', hp'⟩

theorem c2_handshake_transition_witness :
    hs_handler.state = ProtocolState.Handshake ∧
    hs_handler.expected_acks = 0 :: [] ∧
    parse_ack_message [0, 0, 0, 0] = Except.ok 0 ∧
    (process_ack_message 0 [0, 0, 0, 0] 0 hs_handler).1.state = ProtocolState.Established ∧
    (process_ack_message 0 [0, 0, 0, 0] 0 hs_handler).1.timers =
      [(TimerEvent.Update, 5000), (TimerEvent.Ping, 60000)] ∧
    (process_ack_message 0 [0, 0, 0, 0] 0 hs_handler).2 = Except.ok none := by
  have h := (c2_handshake_transition 0 0 [0, 0, 0, 0] hs_handler [] rfl rfl).1 rfl
  exact ⟨rfl, rfl, rfl, h.1, by rw [h.2.1]; rfl, h.2.2⟩


/-- C3 counterexample: a RESET_SVC_TABLE control message arriving in the
Handshake state is processed normally: the command is forwarded and the
result is success, refuting the claim that every non-ACK control type is
fatal in the Handshake state. -/
theorem c3_counterexample :
    hs_handler.state = ProtocolState.Handshake ∧
    (process_control_message true true ControlMessageType.reset_svc_table 0 [] 0 hs_handler).2 =
      Except.ok none ∧
    (process_control_message true true ControlMessageType.reset_svc_table 0 [] 0 hs_handler).1.cmds =
      [Command.ResetServiceTable] :=
  ⟨rfl, rfl, rfl⟩

/-- C3 (amended): in the Handshake state, incoming control messages of type
PING, REDIRECT and HUP fail with their respective handshake protocol errors,
and REGISTER, UPDATE, STATUS (no handler) and UNKNOWN are fatal as well; but
RESET_SVC_TABLE, SCAN_NETWORK and GET_STATUS are processed normally (command
forwarded, status sent) regardless of the protocol state. -/
theorem c3_handshake_control_dispatch (scanning send_ok : Bool) (msg_id : Nat) (body : List Nat)
    (now : Nat) (e : ConnectionHandler) (hs : e.state = ProtocolState.Handshake) :
    (process_control_message scanning send_ok ControlMessageType.ping msg_id body now e).2 =
      Except.error "cannot handle PING message in the Handshake state" ∧
    (process_control_message scanning send_ok ControlMessageType.redirect msg_id body now e).2 =
      Except.error "cannot handle REDIRECT message in the Handshake state" ∧
    (process_control_message scanning send_ok ControlMessageType.hup msg_id body now e).2 =
      Except.error "cannot handle HUP message in the Handshake state" ∧
    (process_control_message scanning send_ok ControlMessageType.register msg_id body now e).2 =
      Except.error ("cannot handle Control Protocol message type: " ++
        ControlMessageType.register.type_name) ∧
    (process_control_message scanning send_ok ControlMessageType.update msg_id body now e).2 =
      Except.error ("cannot handle Control Protocol message type: " ++
        ControlMessageType.update.type_name) ∧
    (process_control_message scanning send_ok ControlMessageType.status msg_id body now e).2 =
      Except.error ("cannot handle Control Protocol message type: " ++
        ControlMessageType.status.type_name) ∧
    (process_control_message scanning send_ok ControlMessageType.unknown msg_id body now e).2 =
      Except.error "unknown Control Protocol message type" ∧
    (process_control_message scanning send_ok ControlMessageType.reset_svc_table msg_id body now e).2 =
      Except.ok none ∧
    (process_control_message scanning send_ok ControlMessageType.scan_network msg_id body now e).2 =
      Except.ok none ∧
    (process_control_message scanning send_ok ControlMessageType.get_status msg_id body now e).2 =
      Except.ok none := by
  refine ⟨?_, ?_, ?_, ?_, ?_, ?_, ?_, ?_, ?_, ?_⟩
  · simp [process_control_message, process_ping_message, hs]
  · simp [process_control_message, process_redirect_message, hs]
  · simp [process_control_message, process_hup_message, hs]
  · simp [process_control_message]
  · simp [process_control_message]
  · simp [process_control_message]
  · simp [process_control_message]
  · simp [process_control_message, process_command]
  · simp [process_control_message, process_command]
  · simp [process_control_message, process_status_request]

theorem c3_handshake_control_dispatch_witness :
    hs_handler.state = ProtocolState.Handshake ∧
    (process_control_message true true ControlMessageType.ping 3 [] 0 hs_handler).2 =
      Except.error "cannot handle PING message in the Handshake state" ∧
    (process_control_message true true ControlMessageType.get_status 3 [] 0 hs_handler).2 =
      Except.ok none := by
  have h := c3_handshake_control_dispatch true true 3 [] 0 hs_handler rfl
  exact ⟨rfl, h.1, h.2.2.2.2.2.2.2.2.2⟩

/-- C5: when a service frame arrives in the Established state for a session
with no context and the service id is missing from the service table or
belongs to a Control Protocol service (no address), the engine emits exactly
one HUP control message carrying that session id with error code 1, creates
no session context and succeeds. -/
theorem c5_unknown_service_hup (cfg : Config) (connect_ok : Bool) (service_id session_id : Nat)
    (body : List Nat) (now : Nat) (e : ConnectionHandler)
    (hs : e.state = ProtocolState.Established)
    (hn : alookup session_id e.sessions = none)
    (hsvc : cfg.get service_id = none ∨ ∃ s, cfg.get service_id = some s ∧ s.address = none) :
    (process_service_request cfg connect_ok service_id session_id body now e).1.sent_log =
      e.sent_log ++ [⟨0, 0, ArrowPayload.ctrl ⟨e.msg_id, CtrlBody.hupB session_id 1⟩⟩] ∧
    (process_service_request cfg connect_ok service_id session_id body now e).1.sessions =
      e.sessions ∧
    (process_service_request cfg connect_ok service_id session_id body now e).1.session_queue =
      e.session_queue ∧
    (process_service_request cfg connect_ok service_id session_id body now e).1.timers =
      e.timers ∧
    (process_service_request cfg connect_ok service_id session_id body now e).2 =
      Except.ok none := by
  have hcreate : create_session_context cfg connect_ok service_id session_id e = (e, false) := by
    rcases hsvc with h | ⟨sv, h, ha⟩
    · simp [create_session_context, hn, h]
    · simp [create_session_context, hn, h, ha]
  have hf := fields_send_hup_message session_id 1 now e
  simp [process_service_request, hs, hcreate, hf.2.2.1, hf.2.2.2.1, hf.2.2.2.2.1,
    hf.2.2.2.2.2.1]

theorem c5_unknown_service_hup_witness :
    est_handler.state = ProtocolState.Established ∧
    sample_cfg.get 9 = none ∧
    (process_service_request sample_cfg true 9 43981 [1] 4 est_handler).1.sent_log =
      [⟨0, 0, ArrowPayload.ctrl ⟨0, CtrlBody.hupB 43981 1⟩⟩] ∧
    (process_service_request sample_cfg true 9 43981 [1] 4 est_handler).1.sessions = [] ∧
    (process_service_request sample_cfg true 9 43981 [1] 4 est_handler).2 = Except.ok none := by
  have h := c5_unknown_service_hup sample_cfg true 9 43981 [1] 4 est_handler rfl rfl (Or.inl rfl)
  exact ⟨rfl, rfl, by rw [h.1]; rfl, by rw [h.2.1]; rfl, h.2.2.2.2⟩

/-- C4 counterexample: in the Established state, with the service table
mapping the service id to an address but the local connect failing, the
engine does send a HUP (error code 1) — the claim that it skips silently
without sending any HUP is refuted. -/
theorem c4_counterexample :
    est_handler.state = ProtocolState.Established ∧
    sample_cfg.get 1 = some ⟨some 7⟩ ∧
    (process_service_request sample_cfg false 1 77 [1, 2] 9 est_handler).1.sent_log =
      [⟨0, 0, ArrowPayload.ctrl ⟨0, CtrlBody.hupB 77 1⟩⟩] ∧
    (process_service_request sample_cfg false 1 77 [1, 2] 9 est_handler).1.sessions = [] :=
  ⟨rfl, rfl, rfl, rfl⟩

/-- C4 (amended): when a service frame arrives in the Established state for
a session with no context, the service table maps its service id to an
address, and connecting the local TCP socket fails, the engine creates no
session context and sends exactly one HUP with error code 1 back — the same
response as for a missing service — rather than skipping silently. -/
theorem c4_connect_failure_hup (cfg : Config) (service_id session_id : Nat) (body : List Nat)
    (now : Nat) (e : ConnectionHandler) (sv : Service) (a : Nat)
    (hs : e.state = ProtocolState.Established)
    (hn : alookup session_id e.sessions = none)
    (hsvc : cfg.get service_id = some sv) (ha : sv.address = some a) :
    (process_service_request cfg false service_id session_id body now e).1.sent_log =
      e.sent_log ++ [⟨0, 0, ArrowPayload.ctrl ⟨e.msg_id, CtrlBody.hupB session_id 1⟩⟩] ∧
    (process_service_request cfg false service_id session_id body now e).1.sessions =
      e.sessions ∧
    (process_service_request cfg false service_id session_id body now e).1.session_queue =
      e.session_queue ∧
    (process_service_request cfg false service_id session_id body now e).1.timers = e.timers ∧
    (process_service_request cfg false service_id session_id body now e).2 = Except.ok none := by
  have hcreate : create_session_context cfg false service_id session_id e = (e, false) := by
    simp [create_session_context, hn, hsvc, ha]
  have hf := fields_send_hup_message session_id 1 now e
  simp [process_service_request, hs, hcreate, hf.2.2.1, hf.2.2.2.1, hf.2.2.2.2.1,
    hf.2.2.2.2.2.1]

theorem c4_connect_failure_hup_witness :
    est_handler.state = ProtocolState.Established ∧
    sample_cfg.get 1 = some ⟨some 7⟩ ∧
    (process_service_request sample_cfg false 1 77 [1, 2] 9 est_handler).1.sent_log =
      [⟨0, 0, ArrowPayload.ctrl ⟨0, CtrlBody.hupB 77 1⟩⟩] ∧
    (process_service_request sample_cfg false 1 77 [1, 2] 9 est_handler).1.sessions = [] ∧
    (process_service_request sample_cfg false 1 77 [1, 2] 9 est_handler).2 = Except.ok none := by
  have h := c4_connect_failure_hup sample_cfg 1 77 [1, 2] 9 est_handler ⟨some 7⟩ 7 rfl rfl rfl rfl
  exact ⟨rfl, rfl, by rw [h.1]; rfl, by rw [h.2.1]; rfl, h.2.2.2.2⟩

/-- C8: a REDIRECT control message with a NUL-terminated body arriving in
the Established state makes the engine terminate with Ok(address):
process_redirect_message returns the body bytes before the first NUL byte,
and the ready dispatch stores that as the engine result and sets the
shutdown flag (the event loop is shut down, so no further events are
processed); a REDIRECT in the Handshake state is a fatal protocol error
instead. -/
theorem c8_redirect (now msg_id : Nat) (body : List Nat) (scanning send_ok : Bool)
    (e : ConnectionHandler) :
    (e.state = ProtocolState.Established → 0 ∈ body →
      process_redirect_message body e =
        (e, Except.ok (some (body.takeWhile fun b => b != 0))) ∧
      (step now e
          (Event.control ControlMessageType.redirect msg_id body scanning send_ok)).result =
        some (Except.ok (body.takeWhile fun b => b != 0)) ∧
      (step now e
          (Event.control ControlMessageType.redirect msg_id body scanning send_ok)).shutdown_flag =
        true) ∧
    (e.state = ProtocolState.Handshake →
      process_redirect_message body e =
        (e, Except.error "cannot handle REDIRECT message in the Handshake state")) := by
  constructor
  · intro hs _
    refine ⟨by simp [process_redirect_message, hs], ?_, ?_⟩ <;>
      simp [step, process_control_message, process_redirect_message, hs, ready_result]
  · intro hs
    simp [process_redirect_message, hs]

theorem c8_redirect_witness :
    est_handler.state = ProtocolState.Established ∧
    (0 : Nat) ∈ [104, 105, 0, 120] ∧
    (step 0 est_handler
        (Event.control ControlMessageType.redirect 1 [104, 105, 0, 120] true true)).result =
      some (Except.ok [104, 105]) ∧
    (step 0 est_handler
        (Event.control ControlMessageType.redirect 1 [104, 105, 0, 120] true true)).shutdown_flag =
      true := by
  have h := (c8_redirect 0 1 [104, 105, 0, 120] true true est_handler).1 rfl (by decide)
  exact ⟨rfl, by decide, by rw [h.2.1]; rfl, h.2.2⟩

theorem session2token_testbit (session_id : Nat) :
    (session2token session_id).testBit 24 = true := by
  unfold session2token
  rw [Nat.testBit_lor]
  have h : (1 <<< 24 : Nat) = 2 ^ 24 := by
    rw [Nat.shiftLeft_eq, Nat.one_mul]
  rw [h, Nat.testBit_two_pow_self]
  simp

theorem session2token_ne_zero (session_id : Nat) : session2token session_id ≠ 0 := by
  intro h
  have hb := session2token_testbit session_id
  rw [h] at hb
  simp [Nat.zero_testBit] at hb

theorem token2session_session2token (session_id : Nat) (h : session_id < 2 ^ 24) :
    token2session (session2token session_id) = session_id := by
  unfold token2session session2token
  have h1 : (1 <<< 24 : Nat) = 2 ^ 24 := by
    rw [Nat.shiftLeft_eq, Nat.one_mul]
  rw [h1, Nat.and_pow_two_sub_one_eq_mod]
  apply Nat.eq_of_testBit_eq
  intro i
  rw [Nat.testBit_mod_two_pow, Nat.testBit_lor]
  by_cases hi : i < 24
  · simp [hi, Nat.testBit_two_pow_of_ne (by omega : 24 ≠ i)]
  · have hle : 2 ^ 24 ≤ 2 ^ i := Nat.pow_le_pow_right (by norm_num) (by omega)
    simp [hi, Nat.testBit_eq_false_of_lt (lt_of_lt_of_le h hle)]

theorem dead_session_timer_step (now session_id : Nat) (e : ConnectionHandler)
    (hlt : session_id < 2 ^ 24)
    (hn : alookup session_id e.sessions = none)
    (hres : e.result = none) :
    step now e (Event.timerTimeout (session2token session_id)) =
      { e with timers := e.timers ++
          [(TimerEvent.TimeoutCheck (session2token session_id), TIMEOUT_CHECK_PERIOD)] } := by
  have htok := session2token_ne_zero session_id
  have hrt := token2session_session2token session_id hlt
  simp [step, te_check_timeout, htok, hrt, check_session_timeout, hn, timer_result, hres]

/-- C10: firing a session TimeoutCheck timer whose session id is absent from
the session map sends no HUP and leaves the engine unchanged except for the
ghost timer trace, which records the re-arming of the same TimeoutCheck
timer for another TIMEOUT_CHECK_PERIOD (1000 ms); iterating such firings
keeps rescheduling the timer indefinitely instead of cancelling it. -/
theorem c10_dead_session_timer (now session_id : Nat) (e : ConnectionHandler)
    (hlt : session_id < 2 ^ 24)
    (hn : alookup session_id e.sessions = none)
    (hres : e.result = none) :
    step now e (Event.timerTimeout (session2token session_id)) =
      { e with timers := e.timers ++
          [(TimerEvent.TimeoutCheck (session2token session_id), TIMEOUT_CHECK_PERIOD)] } ∧
    ∀ n, (fun st => step now st (Event.timerTimeout (session2token session_id)))^[n] e =
      { e with timers := e.timers ++ List.replicate n (TimerEvent.TimeoutCheck (session2token session_id), TIMEOUT_CHECK_PERIOD) } := by
  refine ⟨dead_session_timer_step now session_id e hlt hn hres, ?_⟩
  intro n
  induction n with
  | zero => simp
  | succ m ih =>
    rw [Function.iterate_succ_apply', ih]
    rw [dead_session_timer_step now session_id
      { e with timers := e.timers ++ List.replicate m (TimerEvent.TimeoutCheck (session2token session_id), TIMEOUT_CHECK_PERIOD) }
      hlt hn hres]
    simp [List.replicate_succ', List.append_assoc]

theorem c10_dead_session_timer_witness :
    (5 : Nat) < 2 ^ 24 ∧
    alookup 5 est_handler.sessions = none ∧
    est_handler.result = none ∧
    (step 3 est_handler (Event.timerTimeout (session2token 5))).timers =
      [(TimerEvent.TimeoutCheck (session2token 5), 1000)] ∧
    ((fun st => step 3 st (Event.timerTimeout (session2token 5)))^[2] est_handler).timers =
      [(TimerEvent.TimeoutCheck (session2token 5), 1000),
        (TimerEvent.TimeoutCheck (session2token 5), 1000)] := by
  have h := c10_dead_session_timer 3 5 est_handler (by norm_num) rfl rfl
  refine ⟨by norm_num, rfl, rfl, by rw [h.1]; rfl, by rw [h.2 2]; rfl⟩


theorem ltv_append_none (msg : ArrowMsg) (log : List ArrowMsg)
    (hm : table_version? msg = none) :
    last_table_version (log ++ [msg]) = last_table_version log := by
  unfold last_table_version
  rw [List.filterMap_append]
  simp [List.filterMap_cons, hm]

theorem ltv_append_some (msg : ArrowMsg) (log : List ArrowMsg) (v : Nat)
    (hm : table_version? msg = some v) :
    last_table_version (log ++ [msg]) = some v := by
  unfold last_table_version
  rw [List.filterMap_append]
  simp [List.filterMap_cons, hm]

theorem table_inv_extend_none (e e' : ConnectionHandler) (msg : ArrowMsg)
    (hsl : e'.sent_log = e.sent_log ++ [msg]) (hlu : e'.last_update = e.last_update)
    (hm : table_version? msg = none) (hinv : table_inv e) : table_inv e' := by
  unfold table_inv at *
  rw [hlu, hsl, ltv_append_none msg e.sent_log hm]
  exact hinv

theorem table_inv_keep (e e' : ConnectionHandler)
    (hsl : e'.sent_log = e.sent_log) (hlu : e'.last_update = e.last_update)
    (hinv : table_inv e) : table_inv e' := by
  unfold table_inv at *
  rw [hlu, hsl]
  exact hinv

theorem lu_sl_send_unconfirmed (c : ControlMessage) (now : Nat) (e : ConnectionHandler) :
    (send_unconfirmed_control_message c now e).last_update = e.last_update ∧
    (send_unconfirmed_control_message c now e).sent_log =
      e.sent_log ++ [⟨0, 0, ArrowPayload.ctrl c⟩] := by
  simp only [send_unconfirmed_control_message]
  split <;>
    exact ⟨(fields_send_control_message c now _).2.1, (fields_send_control_message c now _).2.2.1⟩

theorem lu_sl_send_update (table : ServiceTable) (now : Nat) (e : ConnectionHandler) :
    (send_update_message table now e).last_update = e.last_update ∧
    (send_update_message table now e).sent_log =
      e.sent_log ++ [⟨0, 0, ArrowPayload.ctrl ⟨e.msg_id, CtrlBody.updateB table⟩⟩] := by
  simp only [send_update_message]
  exact ⟨(fields_send_control_message _ now _).2.1, (fields_send_control_message _ now _).2.2.1⟩

theorem lu_sl_send_ping (now : Nat) (e : ConnectionHandler) :
    (send_ping_message now e).last_update = e.last_update ∧
    (send_ping_message now e).sent_log =
      e.sent_log ++ [⟨0, 0, ArrowPayload.ctrl ⟨e.msg_id, CtrlBody.pingB⟩⟩] := by
  simp only [send_ping_message]
  exact lu_sl_send_unconfirmed ⟨e.msg_id, CtrlBody.pingB⟩ now _

theorem lu_sl_send_status (request_id : Nat) (scanning : Bool) (now : Nat)
    (e : ConnectionHandler) :
    (send_status request_id scanning now e).last_update = e.last_update ∧
    (send_status request_id scanning now e).sent_log =
      e.sent_log ++ [⟨0, 0, ArrowPayload.ctrl
        ⟨e.msg_id, CtrlBody.statusB request_id (if scanning then STATUS_FLAG_SCAN else 0)
          e.sessions.length⟩⟩] := by
  simp only [send_status]
  exact ⟨(fields_send_control_message _ now _).2.1, (fields_send_control_message _ now _).2.2.1⟩

theorem lu_sl_send_ack (msg_id error_code now : Nat) (e : ConnectionHandler) :
    (send_ack_message msg_id error_code now e).last_update = e.last_update ∧
    (send_ack_message msg_id error_code now e).sent_log =
      e.sent_log ++ [⟨0, 0, ArrowPayload.ctrl ⟨msg_id, CtrlBody.ackB error_code⟩⟩] := by
  simp only [send_ack_message]
  exact ⟨(fields_send_control_message _ now _).2.1, (fields_send_control_message _ now _).2.2.1⟩

theorem lu_sl_create_session (cfg : Config) (connect_ok : Bool) (service_id session_id : Nat)
    (e : ConnectionHandler) :
    (create_session_context cfg connect_ok service_id session_id e).1.last_update =
      e.last_update ∧
    (create_session_context cfg connect_ok service_id session_id e).1.sent_log = e.sent_log := by
  simp only [create_session_context]
  repeat' split
  all_goals exact ⟨rfl, rfl⟩

theorem lu_sl_ready_result (r : CtrlResult) (e : ConnectionHandler) :
    (ready_result r e).last_update = e.last_update ∧
    (ready_result r e).sent_log = e.sent_log := by
  simp only [ready_result]
  cases r with
  | error err => split <;> exact ⟨rfl, rfl⟩
  | ok o =>
    cases o with
    | none => split <;> exact ⟨rfl, rfl⟩
    | some addr => split <;> exact ⟨rfl, rfl⟩

theorem lu_sl_timer_result (r : Except String Unit) (e : ConnectionHandler) :
    (timer_result r e).last_update = e.last_update ∧
    (timer_result r e).sent_log = e.sent_log := by
  simp only [timer_result]
  cases r with
  | error err => split <;> exact ⟨rfl, rfl⟩
  | ok u => split <;> exact ⟨rfl, rfl⟩

theorem lu_sl_process_ack (msg_id : Nat) (body : List Nat) (now : Nat) (e : ConnectionHandler) :
    (process_ack_message msg_id body now e).1.last_update = e.last_update ∧
    (process_ack_message msg_id body now e).1.sent_log = e.sent_log := by
  cases hq : e.expected_acks with
  | nil =>
    rw [process_ack_message_nil msg_id body now e hq]
    exact ⟨rfl, rfl⟩
  | cons hd tl =>
    rw [process_ack_message_cons msg_id now hd tl body e hq]
    by_cases hm : msg_id = hd
    · by_cases hsk : e.state = ProtocolState.Handshake
      · simp only [if_pos hm, if_pos hsk]
        have hf := fields_process_handshake_ack body
          { e with
            expected_acks := tl,
            ack_tout := if tl.isEmpty then ⟨none⟩ else ⟨some (now + CONNECTION_TIMEOUT)⟩ }
        exact ⟨hf.2.2.2.1, hf.2.2.1⟩
      · simp only [if_pos hm, if_neg hsk]
        exact ⟨by trivial, by trivial⟩
    · simp only [if_neg hm]
      exact ⟨by trivial, by trivial⟩

theorem inv_lu_process_ping (msg_id now : Nat) (e : ConnectionHandler) :
    (process_ping_message msg_id now e).1.last_update = e.last_update ∧
    (table_inv e → table_inv (process_ping_message msg_id now e).1) := by
  simp only [process_ping_message]
  split
  · have h := lu_sl_send_ack msg_id 0 now e
    exact ⟨h.1, fun hinv => table_inv_extend_none e _
      ⟨0, 0, ArrowPayload.ctrl ⟨msg_id, CtrlBody.ackB 0⟩⟩ h.2 h.1 rfl hinv⟩
  · exact ⟨rfl, fun hinv => hinv⟩

theorem inv_lu_process_redirect (body : List Nat) (e : ConnectionHandler) :
    (process_redirect_message body e).1.last_update = e.last_update ∧
    (table_inv e → table_inv (process_redirect_message body e).1) := by
  simp only [process_redirect_message]
  split <;> exact ⟨rfl, fun hinv => hinv⟩

theorem inv_lu_process_hup (body : List Nat) (e : ConnectionHandler) :
    (process_hup_message body e).1.last_update = e.last_update ∧
    (table_inv e → table_inv (process_hup_message body e).1) := by
  simp only [process_hup_message]
  split
  · split
    · exact ⟨rfl, fun hinv => hinv⟩
    · exact ⟨rfl, fun hinv => table_inv_keep e _ rfl rfl hinv⟩
  · exact ⟨rfl, fun hinv => hinv⟩

theorem inv_lu_process_command (send_ok : Bool) (cmd : Command) (e : ConnectionHandler) :
    (process_command send_ok cmd e).1.last_update = e.last_update ∧
    (table_inv e → table_inv (process_command send_ok cmd e).1) := by
  simp only [process_command]
  split <;> exact ⟨rfl, fun hinv => table_inv_keep e _ rfl rfl hinv⟩

theorem inv_lu_process_status_request (msg_id : Nat) (scanning : Bool) (now : Nat)
    (e : ConnectionHandler) :
    (process_status_request msg_id scanning now e).1.last_update = e.last_update ∧
    (table_inv e → table_inv (process_status_request msg_id scanning now e).1) := by
  simp only [process_status_request]
  have h := lu_sl_send_status msg_id scanning now e
  exact ⟨h.1, fun hinv => table_inv_extend_none e _
    ⟨0, 0, ArrowPayload.ctrl ⟨e.msg_id, CtrlBody.statusB msg_id
      (if scanning then STATUS_FLAG_SCAN else 0) e.sessions.length⟩⟩ h.2 h.1 rfl hinv⟩

theorem inv_lu_process_service (cfg : Config) (connect_ok : Bool) (service_id session_id : Nat)
    (body : List Nat) (now : Nat) (e : ConnectionHandler) :
    (process_service_request cfg connect_ok service_id session_id body now e).1.last_update =
      e.last_update ∧
    (table_inv e →
      table_inv (process_service_request cfg connect_ok service_id session_id body now e).1) := by
  have hc := lu_sl_create_session cfg connect_ok service_id session_id e
  have hf := fields_send_hup_message session_id 1 now
    (create_session_context cfg connect_ok service_id session_id e).1
  simp only [process_service_request]
  split
  · split
    · exact ⟨hc.1, fun hinv => table_inv_keep e _ hc.2 hc.1 hinv⟩
    · refine ⟨?_, fun hinv => table_inv_extend_none e _
        ⟨0, 0, ArrowPayload.ctrl
          ⟨(create_session_context cfg connect_ok service_id session_id e).1.msg_id,
            CtrlBody.hupB session_id 1⟩⟩ ?_ ?_ rfl hinv⟩
      · rw [hf.2.1]
        exact hc.1
      · rw [hf.2.2.1, hc.2]
      · rw [hf.2.1]
        exact hc.1
  · exact ⟨rfl, fun hinv => hinv⟩

theorem inv_lu_session_ready (session_id : Nat) (outcome : Except String (Option Nat))
    (now : Nat) (e : ConnectionHandler) :
    (session_socket_ready session_id outcome now e).1.last_update = e.last_update ∧
    (table_inv e → table_inv (session_socket_ready session_id outcome now e).1) := by
  have hf2 := fields_send_hup_message session_id 2 now e
  have hf0 := fields_send_hup_message session_id 0 now e
  simp only [session_socket_ready]
  cases outcome with
  | error err =>
    refine ⟨?_, fun hinv => table_inv_extend_none e _
      ⟨0, 0, ArrowPayload.ctrl ⟨e.msg_id, CtrlBody.hupB session_id 2⟩⟩ ?_ ?_ rfl hinv⟩
    · simp only [remove_session_context]
      exact hf2.2.1
    · simp only [remove_session_context]
      exact hf2.2.2.1
    · simp only [remove_session_context]
      exact hf2.2.1
  | ok o =>
    cases o with
    | none =>
      refine ⟨?_, fun hinv => table_inv_extend_none e _
        ⟨0, 0, ArrowPayload.ctrl ⟨e.msg_id, CtrlBody.hupB session_id 0⟩⟩ ?_ ?_ rfl hinv⟩
      · simp only [remove_session_context]
        exact hf0.2.1
      · simp only [remove_session_context]
        exact hf0.2.2.1
      · simp only [remove_session_context]
        exact hf0.2.1
    | some n => exact ⟨rfl, fun hinv => hinv⟩

theorem inv_lu_check_session_timeout (session_id now : Nat) (e : ConnectionHandler) :
    (check_session_timeout session_id now e).1.last_update = e.last_update ∧
    (table_inv e → table_inv (check_session_timeout session_id now e).1) := by
  have hf := fields_send_hup_message session_id 0 now e
  simp only [check_session_timeout]
  split
  · refine ⟨?_, fun hinv => table_inv_extend_none e _
      ⟨0, 0, ArrowPayload.ctrl ⟨e.msg_id, CtrlBody.hupB session_id 0⟩⟩ ?_ ?_ rfl hinv⟩
    · simp only [remove_session_context]
      exact hf.2.1
    · simp only [remove_session_context]
      exact hf.2.2.1
    · simp only [remove_session_context]
      exact hf.2.1
  · exact ⟨rfl, fun hinv => table_inv_keep e _ rfl rfl hinv⟩

theorem inv_lu_check_arrow_timeout (now : Nat) (e : ConnectionHandler) :
    (check_arrow_timeout now e).1.last_update = e.last_update ∧
    (table_inv e → table_inv (check_arrow_timeout now e).1) := by
  simp only [check_arrow_timeout]
  split <;> exact ⟨rfl, fun hinv => table_inv_keep e _ rfl rfl hinv⟩

theorem lu_sl_check_update (cfg : Config) (now : Nat) (e : ConnectionHandler) :
    (check_update cfg now e).last_update =
      (if update_needed e.last_update cfg.version then some cfg.version else e.last_update) ∧
    (check_update cfg now e).sent_log =
      (if update_needed e.last_update cfg.version then
        e.sent_log ++ [⟨0, 0, ArrowPayload.ctrl ⟨e.msg_id, CtrlBody.updateB cfg.service_table⟩⟩]
      else e.sent_log) := by
  have h := lu_sl_send_update cfg.service_table now e
  simp only [check_update]
  split
  case isTrue hu => simp only [if_pos hu, h.2]; exact ⟨by trivial, by trivial⟩
  case isFalse hu => simp only [if_neg hu]; exact ⟨by trivial, by trivial⟩

theorem inv_check_update (cfg : Config) (now : Nat) (e : ConnectionHandler)
    (hinv : table_inv e) : table_inv (check_update cfg now e) := by
  have h := lu_sl_check_update cfg now e
  unfold table_inv at *
  by_cases hu : update_needed e.last_update cfg.version
  · rw [h.1, h.2, if_pos hu, if_pos hu,
      ltv_append_some ⟨0, 0, ArrowPayload.ctrl ⟨e.msg_id, CtrlBody.updateB cfg.service_table⟩⟩
        e.sent_log cfg.version rfl]
  · rw [h.1, h.2, if_neg hu, if_neg hu]
    exact hinv

theorem inv_mono_step (now : Nat) (e : ConnectionHandler) (ev : Event) :
    (table_inv e → table_inv (step now e ev)) ∧
    (∀ v, e.last_update = some v → ∃ v', (step now e ev).last_update = some v' ∧ v ≤ v') := by
  cases ev with
  | control t mid body scanning send_ok =>
    simp only [step]
    have hrr := lu_sl_ready_result
      (process_control_message scanning send_ok t mid body now e).2
      (process_control_message scanning send_ok t mid body now e).1
    have hpc : (process_control_message scanning send_ok t mid body now e).1.last_update =
        e.last_update ∧
        (table_inv e →
          table_inv (process_control_message scanning send_ok t mid body now e).1) := by
      by_cases ht : t = ControlMessageType.unknown
      · subst ht
        simp only [process_control_message, if_pos rfl]
        exact ⟨rfl, fun hinv => hinv⟩
      · simp only [process_control_message, if_neg ht]
        cases t with
        | ack =>
          have h := lu_sl_process_ack mid body now e
          exact ⟨h.1, fun hinv => table_inv_keep e _ h.2 h.1 hinv⟩
        | ping => exact inv_lu_process_ping mid now e
        | redirect => exact inv_lu_process_redirect body e
        | hup => exact inv_lu_process_hup body e
        | reset_svc_table => exact inv_lu_process_command send_ok Command.ResetServiceTable e
        | scan_network => exact inv_lu_process_command send_ok Command.ScanNetwork e
        | get_status => exact inv_lu_process_status_request mid scanning now e
        | register => exact ⟨rfl, fun hinv => hinv⟩
        | update => exact ⟨rfl, fun hinv => hinv⟩
        | status => exact ⟨rfl, fun hinv => hinv⟩
        | unknown => exact absurd rfl ht
    constructor
    · intro hinv
      exact table_inv_keep _ _ hrr.2 hrr.1 (hpc.2 hinv)
    · intro v hv
      refine ⟨v, ?_, le_refl v⟩
      rw [hrr.1, hpc.1]
      exact hv
  | service cfg connect_ok service_id session_id body =>
    simp only [step]
    have hps := inv_lu_process_service cfg connect_ok service_id session_id body now e
    have hrr := lu_sl_ready_result
      (process_service_request cfg connect_ok service_id session_id body now e).2
      (process_service_request cfg connect_ok service_id session_id body now e).1
    constructor
    · intro hinv
      exact table_inv_keep _ _ hrr.2 hrr.1 (hps.2 hinv)
    · intro v hv
      refine ⟨v, ?_, le_refl v⟩
      rw [hrr.1, hps.1]
      exact hv
  | timerUpdate cfg =>
    simp only [step, te_check_update]
    have hcu := lu_sl_check_update cfg now e
    have hinvcu := inv_check_update cfg now e
    have hrec : table_inv (check_update cfg now e) →
        table_inv { check_update cfg now e with
          timers := (check_update cfg now e).timers ++ [(TimerEvent.Update, UPDATE_CHECK_PERIOD)] } :=
      fun h => table_inv_keep _ _ rfl rfl h
    have htr := lu_sl_timer_result (Except.ok ())
      { check_update cfg now e with
        timers := (check_update cfg now e).timers ++ [(TimerEvent.Update, UPDATE_CHECK_PERIOD)] }
    constructor
    · intro hinv
      exact table_inv_keep _ _ htr.2 htr.1 (hrec (hinvcu hinv))
    · intro v hv
      rw [htr.1]
      by_cases hu : update_needed e.last_update cfg.version
      · refine ⟨cfg.version, ?_, ?_⟩
        · show (check_update cfg now e).last_update = some cfg.version
          rw [hcu.1, if_pos hu]
        · rw [hv] at hu
          simp only [update_needed, decide_eq_true_eq] at hu
          exact Nat.le_of_lt hu
      · refine ⟨v, ?_, le_refl v⟩
        show (check_update cfg now e).last_update = some v
        rw [hcu.1, if_neg hu]
        exact hv
  | timerPing =>
    simp only [step, te_check_connection]
    have hp := lu_sl_send_ping now e
    have htr := lu_sl_timer_result (Except.ok ())
      { send_ping_message now e with
        timers := (send_ping_message now e).timers ++ [(TimerEvent.Ping, PING_PERIOD)] }
    constructor
    · intro hinv
      refine table_inv_keep _ _ htr.2 htr.1 ?_
      refine table_inv_keep (send_ping_message now e) _ rfl rfl ?_
      exact table_inv_extend_none e _
        ⟨0, 0, ArrowPayload.ctrl ⟨e.msg_id, CtrlBody.pingB⟩⟩ hp.2 hp.1 rfl hinv
    · intro v hv
      refine ⟨v, ?_, le_refl v⟩
      rw [htr.1]
      show (send_ping_message now e).last_update = some v
      rw [hp.1]
      exact hv
  | timerTimeout tok =>
    simp only [step, te_check_timeout]
    by_cases h0 : tok = 0
    · simp only [if_pos h0]
      have hca := inv_lu_check_arrow_timeout now e
      have htr := lu_sl_timer_result (check_arrow_timeout now e).2 (check_arrow_timeout now e).1
      constructor
      · intro hinv
        exact table_inv_keep _ _ htr.2 htr.1 (hca.2 hinv)
      · intro v hv
        refine ⟨v, ?_, le_refl v⟩
        rw [htr.1, hca.1]
        exact hv
    · simp only [if_neg h0]
      have hcs := inv_lu_check_session_timeout (token2session tok) now e
      have htr := lu_sl_timer_result (check_session_timeout (token2session tok) now e).2
        (check_session_timeout (token2session tok) now e).1
      constructor
      · intro hinv
        exact table_inv_keep _ _ htr.2 htr.1 (hcs.2 hinv)
      · intro v hv
        refine ⟨v, ?_, le_refl v⟩
        rw [htr.1, hcs.1]
        exact hv
  | sessionReady session_id outcome =>
    simp only [step]
    have hsr := inv_lu_session_ready session_id outcome now e
    have hrr := lu_sl_ready_result (session_socket_ready session_id outcome now e).2
      (session_socket_ready session_id outcome now e).1
    constructor
    · intro hinv
      exact table_inv_keep _ _ hrr.2 hrr.1 (hsr.2 hinv)
    · intro v hv
      refine ⟨v, ?_, le_refl v⟩
      rw [hrr.1, hsr.1]
      exact hv

theorem inv_mono_run (now : Nat) (evs : List Event) :
    ∀ e : ConnectionHandler,
      (table_inv e → table_inv (run now e evs)) ∧
      (∀ v, e.last_update = some v → ∃ v', (run now e evs).last_update = some v' ∧ v ≤ v') := by
  induction evs with
  | nil => exact fun e => ⟨fun h => h, fun v hv => ⟨v, hv, le_refl v⟩⟩
  | cons ev rest ih =>
    intro e
    constructor
    · intro hinv
      exact ((ih (step now e ev)).1 ((inv_mono_step now e ev).1 hinv))
    · intro v hv
      obtain ⟨v1, hv1, hle1⟩ := (inv_mono_step now e ev).2 v hv
      obtain ⟨v2, hv2, hle2⟩ := (ih (step now e ev)).2 v1 hv1
      exact ⟨v2, hv2, le_trans hle1 hle2⟩

theorem inv_create_register (cfg : Config) (mac : List Nat) (now : Nat)
    (e : ConnectionHandler) :
    (create_register_request cfg mac now e).last_update = some cfg.version ∧
    table_inv (create_register_request cfg mac now e) := by
  simp only [create_register_request]
  have h := lu_sl_send_unconfirmed
    ⟨e.msg_id, CtrlBody.registerB cfg.uuid mac cfg.password cfg.service_table⟩ now
    { e with last_update := some cfg.version, msg_id := (e.msg_id + 1) % 65536 }
  constructor
  · rw [h.1]
  · unfold table_inv
    rw [h.1, h.2]
    rw [ltv_append_some
      ⟨0, 0, ArrowPayload.ctrl
        ⟨e.msg_id, CtrlBody.registerB cfg.uuid mac cfg.password cfg.service_table⟩⟩
      e.sent_log cfg.version rfl]

/-- C9: last_update is set to the config version when the REGISTER request
is built; at every UpdateCheck tick an UPDATE control message is sent iff
the current config version is strictly greater than last_update, after
which last_update equals the current version; consequently, over any run of
events, last_update is nondecreasing and always equals the version of the
table carried by the most recent REGISTER or UPDATE message. -/
theorem c9_last_update_version (now : Nat) (cfg : Config) (mac : List Nat)
    (e : ConnectionHandler) :
    ((create_register_request cfg mac now e).last_update = some cfg.version ∧
      table_inv (create_register_request cfg mac now e)) ∧
    ((check_update cfg now e).last_update =
        (if update_needed e.last_update cfg.version then some cfg.version
          else e.last_update) ∧
      (check_update cfg now e).sent_log =
        (if update_needed e.last_update cfg.version then
          e.sent_log ++
            [⟨0, 0, ArrowPayload.ctrl ⟨e.msg_id, CtrlBody.updateB cfg.service_table⟩⟩]
        else e.sent_log)) ∧
    (∀ ev, table_inv e → table_inv (step now e ev)) ∧
    (∀ ev v, e.last_update = some v →
      ∃ v', (step now e ev).last_update = some v' ∧ v ≤ v') ∧
    (∀ evs, table_inv e → table_inv (run now e evs)) ∧
    (∀ evs v, e.last_update = some v →
      ∃ v', (run now e evs).last_update = some v' ∧ v ≤ v') :=
  ⟨inv_create_register cfg mac now e,
    lu_sl_check_update cfg now e,
    fun ev => (inv_mono_step now e ev).1,
    fun ev v hv => (inv_mono_step now e ev).2 v hv,
    fun evs => (inv_mono_run now evs e).1,
    fun evs v hv => (inv_mono_run now evs e).2 v hv⟩

theorem c9_last_update_version_witness :
    table_inv base_handler ∧
    (create_register_request sample_cfg [8] 0 base_handler).last_update = some 5 ∧
    table_inv (step 0 (create_register_request sample_cfg [8] 0 base_handler)
      Event.timerPing) ∧
    ∃ v', (step 0 (create_register_request sample_cfg [8] 0 base_handler)
        Event.timerPing).last_update = some v' ∧ 5 ≤ v' := by
  have h0 := c9_last_update_version 0 sample_cfg [8] base_handler
  have h1 := c9_last_update_version 0 sample_cfg [8]
    (create_register_request sample_cfg [8] 0 base_handler)
  exact ⟨rfl, h0.1.1,
    h1.2.2.1 Event.timerPing h0.1.2,
    h1.2.2.2.1 Event.timerPing 5 h0.1.1⟩


theorem buffered_append (cap : Nat) (fs : List ArrowMsg) (m : ArrowMsg) :
    OutputBuffer.buffered ⟨cap, fs ++ [m]⟩ = OutputBuffer.buffered ⟨cap, fs⟩ + m.wire_size := by
  simp [OutputBuffer.buffered]

theorem is_full_false_of_lt (b : OutputBuffer) (h : b.buffered < b.capacity) :
    b.is_full = false := by
  simp only [OutputBuffer.is_full, decide_eq_false_iff_not, Nat.not_le]
  exact h

theorem fill_step_full (now : Nat) (e : ConnectionHandler)
    (h : e.output_buffer.is_full = true) : fill_step now e = e := by
  simp [fill_step, h]

theorem fill_iter_full (now n : Nat) (e : ConnectionHandler)
    (h : e.output_buffer.is_full = true) : (fill_step now)^[n] e = e := by
  induction n with
  | zero => rfl
  | succ m ih =>
    rw [Function.iterate_succ_apply, fill_step_full now e h]
    exact ih

theorem alookup_key_unique {α : Type} (l : List (Nat × α)) (k : Nat) (v : α)
    (hnd : (l.map Prod.fst).Nodup) (hl : alookup k l = some v) :
    ∀ p ∈ l, p.1 = k → p.2 = v := by
  induction l with
  | nil => intro p hp; cases hp
  | cons q t ih =>
    obtain ⟨k0, v0⟩ := q
    intro p hp hk
    simp only [List.map_cons, List.nodup_cons] at hnd
    simp only [alookup] at hl
    rcases List.mem_cons.mp hp with h1 | h1
    · subst h1
      simp only at hk
      rw [if_pos hk] at hl
      cases hl
      rfl
    · by_cases hk0 : k0 = k
      · exfalso
        apply hnd.1
        rw [hk0, ← hk]
        exact List.mem_map_of_mem Prod.fst h1
      · rw [if_neg hk0] at hl
        exact ih hnd.2 hl p h1 hk

theorem fill_step_no_ctx (now sid : Nat) (q : List Nat) (e : ConnectionHandler)
    (hq : e.session_queue = sid :: q)
    (hfull : e.output_buffer.is_full = false)
    (hctx : alookup sid e.sessions = none) :
    fill_step now e = { e with session_queue := q } := by
  simp [fill_step, hq, hfull, hctx]

theorem fill_step_empty_input (now sid : Nat) (q : List Nat) (e : ConnectionHandler)
    (ctx : SessionContext)
    (hq : e.session_queue = sid :: q)
    (hfull : e.output_buffer.is_full = false)
    (hctx : alookup sid e.sessions = some ctx)
    (hne : ctx.input_buffer.isEmpty = true) :
    fill_step now e =
      { e with
        session_queue := q ++ [sid],
        sessions := aupdate sid
          (fun c => { c with input_buffer := c.input_buffer.drop 0 }) e.sessions } := by
  simp [fill_step, hq, hfull, hctx, hne]

theorem fill_step_with_input (now sid : Nat) (q : List Nat) (e : ConnectionHandler)
    (ctx : SessionContext)
    (hq : e.session_queue = sid :: q)
    (hfull : e.output_buffer.is_full = false)
    (hctx : alookup sid e.sessions = some ctx)
    (hne : ctx.input_buffer.isEmpty = false) :
    fill_step now e =
      { e with
        write_tout := if e.output_buffer.is_empty then e.write_tout.set now CONNECTION_TIMEOUT
          else e.write_tout,
        session_queue := q ++ [sid],
        output_buffer := ⟨e.output_buffer.capacity, e.output_buffer.frames ++
          [⟨ctx.service_id, ctx.session_id,
            ArrowPayload.data (ctx.input_buffer.take (min 32768 ctx.input_buffer.length))⟩]⟩,
        sent_log := e.sent_log ++ [⟨ctx.service_id, ctx.session_id,
          ArrowPayload.data (ctx.input_buffer.take (min 32768 ctx.input_buffer.length))⟩],
        sessions := aupdate sid
          (fun c => { c with
            input_buffer := c.input_buffer.drop (min 32768 ctx.input_buffer.length) })
          e.sessions } := by
  by_cases hemp : e.output_buffer.is_empty <;>
    simp [fill_step, hq, hfull, hctx, hne, hemp]

theorem fill_pass (now : Nat) :
    ∀ (q1 q2 : List Nat) (e : ConnectionHandler),
      e.session_queue = q1 ++ q2 →
      q1.Nodup →
      (e.sessions.map Prod.fst).Nodup →
      e.output_buffer.buffered +
          ((q1.filterMap (contrib_msg e.sessions)).map ArrowMsg.wire_size).sum <
        e.output_buffer.capacity →
      ((fill_step now)^[q1.length] e).output_buffer.capacity = e.output_buffer.capacity ∧
      ((fill_step now)^[q1.length] e).output_buffer.frames =
        e.output_buffer.frames ++ q1.filterMap (contrib_msg e.sessions) ∧
      ((fill_step now)^[q1.length] e).session_queue = q2 ++ q1.filter (has_ctx e.sessions) ∧
      ((fill_step now)^[q1.length] e).sessions =
        e.sessions.map (fun p => (p.1, if p.1 ∈ q1 then drop_chunk p.2 else p.2)) := by
  intro q1
  induction q1 with
  | nil =>
    intro q2 e hq hnd hknd hfit
    refine ⟨rfl, by simp, ?_, by simp⟩
    simpa using hq
  | cons sid rest ih =>
    intro q2 e hq hnd hknd hfit
    have hsid : sid ∉ rest := (List.nodup_cons.mp hnd).1
    have hndr : rest.Nodup := (List.nodup_cons.mp hnd).2
    have hfull : e.output_buffer.is_full = false := by
      apply is_full_false_of_lt
      omega
    rw [List.length_cons, Function.iterate_succ_apply]
    cases hctx : alookup sid e.sessions with
    | none =>
      have hstep := fill_step_no_ctx now sid (rest ++ q2) e (by simpa using hq) hfull hctx
      have hcm : contrib_msg e.sessions sid = none := by simp [contrib_msg, hctx]
      have hkeys := alookup_eq_none_forall sid e.sessions hctx
      have hfit1 : ({ e with session_queue := rest ++ q2 } :
            ConnectionHandler).output_buffer.buffered +
            ((rest.filterMap (contrib_msg ({ e with session_queue := rest ++ q2 } :
              ConnectionHandler).sessions)).map ArrowMsg.wire_size).sum <
          ({ e with session_queue := rest ++ q2 } :
            ConnectionHandler).output_buffer.capacity := by
        simpa [List.filterMap_cons_none hcm] using hfit
      have hih := ih q2 { e with session_queue := rest ++ q2 } rfl hndr hknd hfit1
      rw [hstep]
      refine ⟨hih.1, ?_, ?_, ?_⟩
      · rw [hih.2.1]
        simp [List.filterMap_cons_none hcm]
      · rw [hih.2.2.1]
        have hhc : has_ctx e.sessions sid = false := by simp [has_ctx, hctx]
        simp [List.filter_cons, hhc]
      · rw [hih.2.2.2]
        apply List.map_congr_left
        intro p hp
        have hpne := hkeys p hp
        simp [List.mem_cons, hpne]
    | some ctx =>
      have hval := alookup_key_unique e.sessions sid ctx hknd hctx
      cases hne : ctx.input_buffer.isEmpty with
      | true =>
        have hinp : ctx.input_buffer = [] := List.isEmpty_iff.mp hne
        have hstep := fill_step_empty_input now sid (rest ++ q2) e ctx (by simpa using hq)
          hfull hctx hne
        have hcm : contrib_msg e.sessions sid = none := by simp [contrib_msg, hctx, hne]
        set e1 : ConnectionHandler :=
          { e with
            session_queue := (rest ++ q2) ++ [sid],
            sessions := aupdate sid
              (fun c => { c with input_buffer := c.input_buffer.drop 0 }) e.sessions } with he1
        have hsess1 : e1.sessions = aupdate sid
            (fun c => { c with input_buffer := c.input_buffer.drop 0 }) e.sessions := rfl
        have hq1 : e1.session_queue = rest ++ (q2 ++ [sid]) := by
          show (rest ++ q2) ++ [sid] = rest ++ (q2 ++ [sid])
          exact List.append_assoc rest q2 [sid]
        have hknd1 : (e1.sessions.map Prod.fst).Nodup := by
          rw [hsess1, aupdate_keys]
          exact hknd
        have hcong : ∀ r ∈ rest, contrib_msg e1.sessions r = contrib_msg e.sessions r := by
          intro r hr
          have hrs : r ≠ sid := fun h => hsid (h ▸ hr)
          simp only [hsess1, contrib_msg]
          rw [alookup_aupdate_ne sid r _ e.sessions hrs]
        have hfit1 : e1.output_buffer.buffered +
              ((rest.filterMap (contrib_msg e1.sessions)).map ArrowMsg.wire_size).sum <
            e1.output_buffer.capacity := by
          rw [List.filterMap_congr hcong]
          show e.output_buffer.buffered + _ < e.output_buffer.capacity
          simpa [List.filterMap_cons_none hcm] using hfit
        have hih := ih (q2 ++ [sid]) e1 hq1 hndr hknd1 hfit1
        rw [hstep]
        refine ⟨hih.1, ?_, ?_, ?_⟩
        · rw [hih.2.1, List.filterMap_congr hcong]
          show e.output_buffer.frames ++ _ = _
          simp [List.filterMap_cons_none hcm]
        · rw [hih.2.2.1]
          have hhc : has_ctx e.sessions sid = true := by simp [has_ctx, hctx]
          have hcongf : ∀ r ∈ rest, has_ctx e1.sessions r = has_ctx e.sessions r := by
            intro r hr
            have hrs : r ≠ sid := fun h => hsid (h ▸ hr)
            simp only [hsess1, has_ctx]
            rw [alookup_aupdate_ne sid r _ e.sessions hrs]
          rw [List.filter_congr hcongf]
          simp [List.filter_cons, hhc, List.append_assoc]
        · rw [hih.2.2.2, hsess1, aupdate, List.map_map]
          apply List.map_congr_left
          intro p hp
          by_cases hps : p.1 = sid
          · have hval2 := hval p hp hps
            simp [Function.comp_def, hps, List.mem_cons, hsid, hval2, hinp, drop_chunk]
          · simp [Function.comp_def, hps, List.mem_cons]
      | false =>
        have hstep := fill_step_with_input now sid (rest ++ q2) e ctx (by simpa using hq)
          hfull hctx hne
        set msg : ArrowMsg := ⟨ctx.service_id, ctx.session_id,
          ArrowPayload.data (ctx.input_buffer.take (min 32768 ctx.input_buffer.length))⟩
          with hmsg
        have hcm : contrib_msg e.sessions sid = some msg := by
          simp [contrib_msg, hctx, hne, hmsg]
        set e1 : ConnectionHandler :=
          { e with
            write_tout := if e.output_buffer.is_empty then
              e.write_tout.set now CONNECTION_TIMEOUT else e.write_tout,
            session_queue := (rest ++ q2) ++ [sid],
            output_buffer := ⟨e.output_buffer.capacity, e.output_buffer.frames ++ [msg]⟩,
            sent_log := e.sent_log ++ [msg],
            sessions := aupdate sid
              (fun c => { c with
                input_buffer := c.input_buffer.drop (min 32768 ctx.input_buffer.length) })
              e.sessions } with he1
        have hsess1 : e1.sessions = aupdate sid
            (fun c => { c with
              input_buffer := c.input_buffer.drop (min 32768 ctx.input_buffer.length) })
            e.sessions := rfl
        have hq1 : e1.session_queue = rest ++ (q2 ++ [sid]) := by
          show (rest ++ q2) ++ [sid] = rest ++ (q2 ++ [sid])
          exact List.append_assoc rest q2 [sid]
        have hknd1 : (e1.sessions.map Prod.fst).Nodup := by
          rw [hsess1, aupdate_keys]
          exact hknd
        have hcong : ∀ r ∈ rest, contrib_msg e1.sessions r = contrib_msg e.sessions r := by
          intro r hr
          have hrs : r ≠ sid := fun h => hsid (h ▸ hr)
          simp only [hsess1, contrib_msg]
          rw [alookup_aupdate_ne sid r _ e.sessions hrs]
        have hbuf : e1.output_buffer.buffered =
            e.output_buffer.buffered + msg.wire_size :=
          buffered_append e.output_buffer.capacity e.output_buffer.frames msg
        have hfit1 : e1.output_buffer.buffered +
              ((rest.filterMap (contrib_msg e1.sessions)).map ArrowMsg.wire_size).sum <
            e1.output_buffer.capacity := by
          rw [List.filterMap_congr hcong, hbuf]
          have hexp : ((List.filterMap (contrib_msg e.sessions) (sid :: rest)).map
              ArrowMsg.wire_size).sum =
              msg.wire_size +
                ((rest.filterMap (contrib_msg e.sessions)).map ArrowMsg.wire_size).sum := by
            rw [List.filterMap_cons_some hcm]
            simp
          show _ < e.output_buffer.capacity
          rw [hexp] at hfit
          omega
        have hih := ih (q2 ++ [sid]) e1 hq1 hndr hknd1 hfit1
        rw [hstep]
        refine ⟨?_, ?_, ?_, ?_⟩
        · rw [hih.1]
        · rw [hih.2.1, List.filterMap_congr hcong, List.filterMap_cons_some hcm]
          show (e.output_buffer.frames ++ [msg]) ++ _ = _
          simp
        · rw [hih.2.2.1]
          have hhc : has_ctx e.sessions sid = true := by simp [has_ctx, hctx]
          have hcongf : ∀ r ∈ rest, has_ctx e1.sessions r = has_ctx e.sessions r := by
            intro r hr
            have hrs : r ≠ sid := fun h => hsid (h ▸ hr)
            simp only [hsess1, has_ctx]
            rw [alookup_aupdate_ne sid r _ e.sessions hrs]
          rw [List.filter_congr hcongf]
          simp [List.filter_cons, hhc, List.append_assoc]
        · rw [hih.2.2.2, hsess1, aupdate, List.map_map]
          apply List.map_congr_left
          intro p hp
          by_cases hps : p.1 = sid
          · have hval2 := hval p hp hps
            have hdc : drop_chunk p.2 = { p.2 with
                input_buffer := p.2.input_buffer.drop (min 32768 ctx.input_buffer.length) } := by
              rw [hval2, drop_chunk]
            simp [Function.comp_def, hps, List.mem_cons, hdc, hsid, hval2, drop_chunk]
          · simp [Function.comp_def, hps, List.mem_cons]


/-- C6: fill_output_buffer performs at most one round-robin pass over the
session queue, stopping as soon as the output buffer reports full (in
particular it is a no-op when the buffer is already full on entry); when the
whole pass fits, each queued session with a context contributes, if its
input buffer is non-empty, exactly one ArrowMessage carrying the first
min(buffered, 32768) bytes of its input buffer, those bytes are dropped from
the input buffer, and every visited session with a context is re-enqueued at
the tail whether or not it contributed (sessions without a context are
dropped from the queue). -/
theorem c6_fill_output_buffer (now : Nat) (e : ConnectionHandler) :
    (e.output_buffer.is_full = true → fill_output_buffer now e = e) ∧
    (∀ k, k ≤ e.session_queue.length →
      ((fill_step now)^[k] e).output_buffer.is_full = true →
      fill_output_buffer now e = (fill_step now)^[k] e) ∧
    (e.session_queue.Nodup →
      (e.sessions.map Prod.fst).Nodup →
      e.output_buffer.buffered +
          ((e.session_queue.filterMap (contrib_msg e.sessions)).map ArrowMsg.wire_size).sum <
        e.output_buffer.capacity →
      (fill_output_buffer now e).output_buffer.frames =
        e.output_buffer.frames ++ e.session_queue.filterMap (contrib_msg e.sessions) ∧
      (fill_output_buffer now e).session_queue =
        e.session_queue.filter (has_ctx e.sessions) ∧
      (fill_output_buffer now e).sessions =
        e.sessions.map (fun p => (p.1, if p.1 ∈ e.session_queue then drop_chunk p.2
          else p.2))) := by
  refine ⟨?_, ?_, ?_⟩
  · intro h
    exact fill_iter_full now e.session_queue.length e h
  · intro k hk hfullk
    have hlen : e.session_queue.length = (e.session_queue.length - k) + k :=
      (Nat.sub_add_cancel hk).symm
    rw [fill_output_buffer, hlen, Function.iterate_add_apply]
    exact fill_iter_full now (e.session_queue.length - k) _ hfullk
  · intro hnd hknd hfit
    have h := fill_pass now e.session_queue [] e (by simp) hnd hknd hfit
    refine ⟨h.2.1, ?_, h.2.2.2⟩
    rw [fill_output_buffer] at *
    rw [h.2.2.1]
    simp

theorem c6_fill_output_buffer_witness :
    full_handler.output_buffer.is_full = true ∧
    fill_output_buffer 0 full_handler = full_handler ∧
    fill_handler.session_queue.Nodup ∧
    (fill_handler.sessions.map Prod.fst).Nodup ∧
    fill_handler.output_buffer.buffered +
        ((fill_handler.session_queue.filterMap (contrib_msg fill_handler.sessions)).map
          ArrowMsg.wire_size).sum < fill_handler.output_buffer.capacity ∧
    (fill_output_buffer 7 fill_handler).output_buffer.frames =
      [⟨1, 3, ArrowPayload.data [10, 11, 12]⟩] ∧
    (fill_output_buffer 7 fill_handler).session_queue = [3, 4] ∧
    (fill_output_buffer 7 fill_handler).sessions =
      [(3, ⟨1, 3, [], [], Timeout.new⟩), (4, fill_ctx2)] := by
  have h := (c6_fill_output_buffer 7 fill_handler).2.2 (by decide) (by decide) (by decide)
  have h0 := (c6_fill_output_buffer 0 full_handler).1 rfl
  refine ⟨rfl, h0, by decide, by decide, by decide, ?_, ?_, ?_⟩
  · rw [h.1]
    rfl
  · rw [h.2.1]
    rfl
  · rw [h.2.2]
    rfl


end Arrow
